import Mathlib

/-!
Verification development for the hashcli terminal assistant.

This file gives a shallow embedding of the core of the repository:
the shell tool security gate (hashcli/tools/shell.py), the filesystem
tool (hashcli/tools/filesystem.py), the three provider adapters
(hashcli/providers/{openai,anthropic,google}_provider.py) and the
conversation orchestrator (hashcli/llm_handler.py), together with
theorems settling the specification claims about them.

Modelling conventions:
* Python strings are Lean `String`; `s.lower()` is a character-wise
  `Char.toLower` map; `pat in s` is substring (infix) containment.
* Effectful boundaries (the remote API call, the filesystem, the
  subprocess spawn, user confirmation, the history store) are explicit
  parameters/oracles; a function that can raise returns `Except String`.
* Python's `json` module and `hash`/`repr` builtins are abstracted as an
  environment record `PyEnv` of functions; no claim depends on their
  concrete behaviour.
* Subprocess spawning is represented by the `ShellOutcome` type: the
  embedding records whether the tool returns a string without spawning
  (`rejected`), spawns through a shell (`spawnShell`) or spawns directly
  with an argv vector (`spawnArgv`).
-/

/-! ## Basic string utilities mirroring Python semantics -/

/-- Python `s.lower()` (character-wise, as for the ASCII data involved). -/
def pyLower (s : String) : String := String.mk (s.data.map Char.toLower)

/-- Python `pat in s`: substring containment. -/
def containsSub (s pat : String) : Bool := decide (pat.data <:+: s.data)

/-- Python truthiness filter for an optional string: `None` and `""` are falsy. -/
def truthy (o : Option String) : Option String :=
  match o with
  | some s => if s = "" then none else some s
  | none => none

/-- `strStartsWith s pre` : `s` begins with `pre`. -/
def strStartsWith (s pre : String) : Bool := pre.data.isPrefixOf s.data

/-! ## Shared data: decoded tool arguments, usage dictionaries, environment -/

/-- A decoded JSON object payload of tool-call arguments (string-valued map,
which is all the orchestrator-produced schemas use). -/
abbrev ArgsDict := List (String × String)

/-- A provider `usage` dictionary (token accounting), key/value pairs in
insertion order. -/
abbrev UsageDict := List (String × Nat)

/-- Gemma text-parsed tool use entry: `tool_name` (possibly absent) and
`arguments`. -/
abbrev GemmaUse := Option String × ArgsDict

/-- Abstraction of the Python runtime services the adapters and the
orchestrator use: the `json` module and the `hash`/`repr` builtins.
Theorems quantify over this record; witnesses supply concrete values. -/
structure PyEnv where
  /-- `json.loads` on a serialized arguments object; `.error` models
  `json.JSONDecodeError`. -/
  jsonLoads : String → Except String ArgsDict
  /-- `json.dumps` on an arguments object. -/
  jsonDumps : ArgsDict → String
  /-- `json.dumps` applied to the gemma `{"tool_uses": [...]}` wrapper. -/
  dumpsToolUses : List (String × ArgsDict) → String
  /-- `json.dumps(parameters, indent=2)` for a tool parameter schema,
  keyed here by tool name. -/
  dumpsSchema : String → String
  /-- `json.loads` of a fenced gemma block followed by `.get("tool_uses", [])`;
  `none` models a decode failure. -/
  jsonLoadsToolUses : String → Option (List GemmaUse)
  /-- Python `hash(·)` on a string (runtime dependent). -/
  pyHash : String → Int
  /-- Python `str(·)` of a decoded arguments dict. -/
  reprDict : ArgsDict → String

/-! ## Normalized model (llm_handler.py: ToolCall, LLMResponse) -/

/-- `ToolCall` — a normalized tool invocation request (llm_handler.py). -/
structure ToolCall where
  name : String
  arguments : ArgsDict
  call_id : String
deriving DecidableEq, Repr

/-- Default call id `f"call_{name}_{hash(str(arguments))}"` used when a
vendor omits one. -/
def defaultCallId (env : PyEnv) (name : String) (arguments : ArgsDict) : String :=
  "call_" ++ name ++ "_" ++ toString (env.pyHash (env.reprDict arguments))

/-- `LLMResponse` — the normalized response of one provider call. -/
structure LLMResponse where
  content : String
  tool_calls : List ToolCall
  model : Option String
  usage : Option UsageDict
deriving DecidableEq, Repr

/-- A serialized tool-call record inside an assistant chat message
(the `{"id", "type", "function": {"name", "arguments"}}` dict). -/
structure ToolCallDict where
  id : String
  ttype : String
  name : String
  arguments : String
deriving DecidableEq, Repr

/-- One chat-format conversation message (the dicts the orchestrator builds). -/
structure ChatMsg where
  role : String
  content : String
  tool_calls : List ToolCallDict := []
  tool_call_id : Option String := none
deriving DecidableEq, Repr

/-! ## Shell tool (hashcli/tools/shell.py) -/

/-- The slice of `HashConfig` the shell tool consumes (spec section 6:
configuration collaborator interface). -/
structure ShellConfig where
  allow_command_execution : Bool
  allow_shell_operators : Bool
  blocked_commands : List String
  allowed_commands : Option (List String)
  command_timeout : Nat
deriving DecidableEq, Repr

/-- The fixed dangerous-pattern list of `_validate_command_security`. -/
def dangerousPatterns : List String :=
  ["$(", "`", "&&", "||", "rm -rf /", "sudo rm", "chmod 777", "curl | sh", "wget | sh"]

/-- `shlex` whitespace characters. -/
def shlexWhitespace : List Char := [' ', '\t', '\r', '\n']

/-- Lexer states of the POSIX `shlex.split` model. -/
inductive ShlexState where
  | normal
  | inSingle
  | inDouble
  | escNormal
  | escDouble
deriving DecidableEq, Repr

/-- Worker for `shlexSplit`: characters, state, current token, whether a token
is open, accumulated tokens. Errors model `ValueError`. -/
def shlexSplitAux : List Char → ShlexState → List Char → Bool → List String →
    Except String (List String)
  | [], st, cur, started, acc =>
    match st with
    | .normal => .ok (acc ++ if started then [String.mk cur] else [])
    | .inSingle => .error "No closing quotation"
    | .inDouble => .error "No closing quotation"
    | .escNormal => .error "No escaped character"
    | .escDouble => .error "No escaped character"
  | c :: rest, .normal, cur, started, acc =>
    if c ∈ shlexWhitespace then
      if started then shlexSplitAux rest .normal [] false (acc ++ [String.mk cur])
      else shlexSplitAux rest .normal [] false acc
    else if c = '\'' then shlexSplitAux rest .inSingle cur true acc
    else if c = '"' then shlexSplitAux rest .inDouble cur true acc
    else if c = '\\' then shlexSplitAux rest .escNormal cur true acc
    else shlexSplitAux rest .normal (cur ++ [c]) true acc
  | c :: rest, .inSingle, cur, started, acc =>
    if c = '\'' then shlexSplitAux rest .normal cur started acc
    else shlexSplitAux rest .inSingle (cur ++ [c]) started acc
  | c :: rest, .inDouble, cur, started, acc =>
    if c = '"' then shlexSplitAux rest .normal cur started acc
    else if c = '\\' then shlexSplitAux rest .escDouble cur started acc
    else shlexSplitAux rest .inDouble (cur ++ [c]) started acc
  | c :: rest, .escNormal, cur, _, acc =>
    shlexSplitAux rest .normal (cur ++ [c]) true acc
  | c :: rest, .escDouble, cur, started, acc =>
    if c = '"' ∨ c = '\\' then shlexSplitAux rest .inDouble (cur ++ [c]) started acc
    else shlexSplitAux rest .inDouble (cur ++ ['\\', c]) started acc

/-- Model of `shlex.split(command)` (POSIX mode); `.error` models `ValueError`. -/
def shlexSplit (command : String) : Except String (List String) :=
  shlexSplitAux command.data .normal [] false []

/-- Worker for `_split_command_chain`: the character loop with
`in_single`/`in_double`/`escaped` state. -/
def splitChainAux : List Char → Bool → Bool → Bool → List Char → List String →
    List String
  | [], _, _, _, current, segs =>
    let seg := (String.mk current).trim
    if seg ≠ "" then segs ++ [seg] else segs
  | ch :: rest, inS, inD, esc, current, segs =>
    if esc then splitChainAux rest inS inD false (current ++ [ch]) segs
    else if ch = '\\' ∧ ¬inS then splitChainAux rest inS inD true (current ++ [ch]) segs
    else if ch = '\'' ∧ ¬inD then splitChainAux rest (!inS) inD false (current ++ [ch]) segs
    else if ch = '"' ∧ ¬inS then splitChainAux rest inS (!inD) false (current ++ [ch]) segs
    else if ¬inS ∧ ¬inD ∧ (ch = '|' ∨ ch = ';') then
      let seg := (String.mk current).trim
      splitChainAux rest inS inD false [] (if seg ≠ "" then segs ++ [seg] else segs)
    else splitChainAux rest inS inD false (current ++ [ch]) segs

/-- `ShellTool._split_command_chain`: split on unquoted `|` and `;`. -/
def splitCommandChain (command : String) : List String :=
  splitChainAux command.data false false false [] []

/-- `ShellTool._extract_base_commands`: first `shlex` token of each chain
segment, skipping segments that fail to lex (`ValueError`) or are empty. -/
def extractBaseCommands (command : String) : List String :=
  (splitCommandChain command).filterMap fun seg =>
    match shlexSplit seg with
    | .ok (p :: _) => some p
    | .ok [] => none
    | .error _ => none

/-- The allow-list block of `_validate_command_security`: when a non-empty
whitelist is configured, the first base command not on it yields the
rejection message (`if config.allowed_commands:` is Python truthiness, so an
empty list disables the check like `None` does). -/
def allowedListCheck (command : String) (config : ShellConfig) : Option String :=
  match config.allowed_commands with
  | some allowed =>
    if allowed.isEmpty then none
    else
      match (extractBaseCommands command).find? (fun b => ¬ allowed.contains b) with
      | some bad => some ("Command not in allowed list: " ++ bad)
      | none => none
  | none => none

/-- The dangerous-pattern list actually checked: the fixed patterns, plus
`;` and `|` when shell operators are not allowed. -/
def dangerousList (config : ShellConfig) : List String :=
  dangerousPatterns ++ (if config.allow_shell_operators then [] else [";", "|"])

/-- `ShellTool._validate_command_security`: returns the rejection message, or
`""` when the command is valid. -/
def validateCommandSecurity (command : String) (config : ShellConfig) : String :=
  let command_lower := pyLower command
  match config.blocked_commands.find? (fun b => containsSub command_lower (pyLower b)) with
  | some blocked => "Blocked command detected: " ++ blocked
  | none =>
    match allowedListCheck command config with
    | some msg => msg
    | none =>
      match (dangerousList config).find? (fun pat => containsSub command_lower pat) with
      | some pat => "Potentially dangerous command pattern detected: " ++ pat
      | none => ""

/-- `ShellTool._should_use_shell`. -/
def shouldUseShell (command : String) (config : ShellConfig) : Bool :=
  if !config.allow_shell_operators then false
  else containsSub command "|" || containsSub command ";"

/-- What `ShellTool.execute` does up to the subprocess boundary: either it
returns a string without spawning any process (`rejected`), or it spawns via
`subprocess.run(..., shell=True)` (`spawnShell`), or via direct argv
invocation `subprocess.run(cmd_args, shell=False)` (`spawnArgv`). -/
inductive ShellOutcome where
  | rejected (msg : String)
  | spawnShell (command : String)
  | spawnArgv (args : List String)
deriving DecidableEq, Repr

/-- `true` iff the outcome returns a string without spawning a subprocess. -/
def ShellOutcome.isRejected : ShellOutcome → Bool
  | .rejected _ => true
  | _ => false

/-- `ShellTool.execute` (string command case) up to the spawn boundary. -/
def shellExecute (command : String) (config : ShellConfig) : ShellOutcome :=
  if config.allow_command_execution = false then
    .rejected "Command execution is disabled in configuration."
  else if command = "" then
    .rejected "No command provided."
  else
    let security := validateCommandSecurity command config
    if security ≠ "" then .rejected security
    else if shouldUseShell command config then .spawnShell command
    else
      match shlexSplit command with
      | .ok args => .spawnArgv args
      | .error e => .rejected ("Error executing command: " ++ e)

/-- `ShellTool.requires_confirmation`. -/
def shellRequiresConfirmation : Bool := true

/-! ## Filesystem tool (hashcli/tools/filesystem.py) -/

/-- The sensitive read patterns of `FileSystemTool._is_sensitive_file`. -/
def sensitivePatterns : List String :=
  ["/etc/passwd", "/etc/shadow", "/etc/sudoers",
   ".ssh/id_rsa", ".ssh/id_dsa", ".ssh/id_ecdsa", ".ssh/id_ed25519",
   ".aws/credentials", ".env", ".secret", "private_key",
   "id_rsa", "id_dsa", "id_ecdsa", "id_ed25519"]

/-- The sensitive write/list path roots of `FileSystemTool._is_sensitive_path`. -/
def sensitiveRoots : List String :=
  ["/etc", "/bin", "/sbin", "/usr/bin", "/usr/sbin", "/sys", "/proc", "/dev",
   "/boot", "C:\\\\Windows", "C:\\\\Program Files", "C:\\\\System32"]

/-- `FileSystemTool._is_sensitive_file`. -/
def isSensitiveFile (path : String) : Bool :=
  sensitivePatterns.any fun pat => containsSub (pyLower path) pat

/-- `FileSystemTool._is_sensitive_path`. -/
def isSensitivePath (path : String) : Bool :=
  sensitiveRoots.any fun root => strStartsWith path root

/-- The filesystem as seen by the tool: existence, kind, size, contents;
`resolve` models `Path(p).resolve()`. -/
structure FsState where
  resolve : String → String
  pathExists : String → Bool
  isFile : String → Bool
  isDir : String → Bool
  fileSize : String → Nat
  contents : String → String

/-- Outcome of `FileSystemTool._read_file` up to the `open` boundary: every
constructor except `opened` returns without opening the file. -/
inductive FsReadOutcome where
  | noPath
  | denied (path : String)
  | notExists (path : String)
  | notAFile (path : String)
  | tooLarge (path : String)
  | opened (path : String)
deriving DecidableEq, Repr

/-- `FileSystemTool._read_file`, with `open`/`stat` abstracted by `FsState`. -/
def readFileOutcome (file_path : String) (fs : FsState) : FsReadOutcome :=
  if file_path = "" then .noPath
  else
    let path := fs.resolve file_path
    if isSensitiveFile path then .denied path
    else if !fs.pathExists path then .notExists path
    else if !fs.isFile path then .notAFile path
    else if fs.fileSize path > 1024 * 1024 then .tooLarge path
    else .opened path

/-- The string `_read_file` returns for each outcome. -/
def readOutcomeMessage (fs : FsState) : FsReadOutcome → String
  | .noPath => "No file path provided"
  | .denied p => "Access to sensitive file denied: " ++ p
  | .notExists p => "File does not exist: " ++ p
  | .notAFile p => "Path is not a file: " ++ p
  | .tooLarge p => "File too large to read (max 1MB): " ++ p
  | .opened p => "Content of " ++ p ++ ":\\n\\n" ++ fs.contents p

/-- Outcome of `FileSystemTool._write_file` up to the `open` boundary. -/
inductive FsWriteOutcome where
  | noPath
  | denied (path : String)
  | wrote (path : String)
deriving DecidableEq, Repr

/-- `FileSystemTool._write_file` up to the write itself. -/
def writeFileOutcome (file_path : String) (fs : FsState) : FsWriteOutcome :=
  if file_path = "" then .noPath
  else
    let path := fs.resolve file_path
    if isSensitivePath path then .denied path
    else .wrote path

/-- Outcome of `FileSystemTool._list_directory` up to the `iterdir` boundary. -/
inductive FsListOutcome where
  | denied (path : String)
  | notExists (path : String)
  | notADir (path : String)
  | listed (path : String)
deriving DecidableEq, Repr

/-- `FileSystemTool._list_directory` up to the directory iteration. -/
def listDirectoryOutcome (directory_path : String) (fs : FsState) : FsListOutcome :=
  let path := fs.resolve directory_path
  if isSensitivePath path then .denied path
  else if !fs.pathExists path then .notExists path
  else if !fs.isDir path then .notADir path
  else .listed path

/-- The argument dictionary handed to `FileSystemTool.execute`; `none` means
the key is absent. -/
structure FsArgs where
  file_path : Option String := none
  content : Option String := none
  directory_path : Option String := none
deriving DecidableEq, Repr

/-- Outcome of `FileSystemTool.execute`: the key-presence dispatch. -/
inductive FsOutcome where
  | write (o : FsWriteOutcome)
  | read (o : FsReadOutcome)
  | list (o : FsListOutcome)
  | invalidArgs
deriving DecidableEq, Repr

/-- `FileSystemTool.execute`: dispatch by which argument keys are present. -/
def fsExecute (args : FsArgs) (fs : FsState) : FsOutcome :=
  match args.file_path, args.content, args.directory_path with
  | some fp, some _, _ => .write (writeFileOutcome fp fs)
  | some fp, none, _ => .read (readFileOutcome fp fs)
  | none, _, some dp => .list (listDirectoryOutcome dp fs)
  | none, _, none => .invalidArgs

/-! ## Tool specification dictionaries (llm_handler._get_available_tools) -/

/-- One property entry of a JSON-Schema-like parameters object. -/
structure PropSpec where
  ptype : String
  description : String
  defaultVal : Option Bool := none
deriving DecidableEq, Repr

/-- A `parameters` schema: `type`, `properties`, `required`. -/
structure ParamSchema where
  ptype : String
  properties : List (String × PropSpec)
  required : List String
deriving DecidableEq, Repr

/-- The `function` part of an OpenAI-style tool spec. -/
structure ToolFunctionSpec where
  name : String
  description : String
  parameters : ParamSchema
deriving DecidableEq, Repr

/-- An OpenAI-style tool spec dict `{"type": ..., "function": ...}`. -/
structure ToolSpecDict where
  ttype : String
  function : ToolFunctionSpec
deriving DecidableEq, Repr

/-! ## Provider adapters: common pieces -/

/-- The slice of `HashConfig` a provider adapter reads, plus the model name
the adapter instance holds. -/
structure ProviderCfg where
  streaming : Bool
  max_response_tokens : Nat
  model : String
deriving DecidableEq, Repr

/-- The observable result of one `generate_response` call: the normalized
response, the stream-handler invocations in order, and the caller's message
list as it stands after the call (the adapters only read it; mutation would
surface here). -/
structure GenResult where
  response : LLMResponse
  sinkCalls : List String
  messagesAfter : List ChatMsg
deriving DecidableEq, Repr

/-! ## Anthropic provider (anthropic_provider.py) -/

/-- A content block of the Anthropic request format. -/
inductive AnthOutBlock where
  | text (s : String)
  | toolUse (id name : String) (input : ArgsDict)
  | toolResult (tool_use_id content : String)
deriving DecidableEq, Repr

/-- Message content in the Anthropic request format: a plain string or a
block array. -/
inductive AnthContentOut where
  | plain (s : String)
  | blocks (bs : List AnthOutBlock)
deriving DecidableEq, Repr

/-- One message of the Anthropic request format. -/
structure AnthOutMsg where
  role : String
  content : AnthContentOut
deriving DecidableEq, Repr

/-- One step of `AnthropicProvider._format_messages_for_provider`; the
accumulator is `(system_message, anthropic_messages)` and an `Except` models
the `json.loads` call raising on malformed serialized arguments. -/
def anthFormatStep (env : PyEnv) (acc : Except String (Option String × List AnthOutMsg))
    (message : ChatMsg) : Except String (Option String × List AnthOutMsg) :=
  match acc with
  | .error e => .error e
  | .ok (system, msgs) =>
    if message.role = "system" then .ok (some message.content, msgs)
    else if message.role = "assistant" then
      if message.tool_calls ≠ [] then
        match message.tool_calls.mapM (fun tc =>
            (env.jsonLoads tc.arguments).map fun args =>
              AnthOutBlock.toolUse tc.id tc.name args) with
        | .error e => .error e
        | .ok tuBlocks =>
          let blocks := (if message.content ≠ "" then [AnthOutBlock.text message.content]
            else []) ++ tuBlocks
          .ok (system, msgs ++ [⟨message.role, .blocks blocks⟩])
      else if message.content ≠ "" then
        .ok (system, msgs ++ [⟨message.role, .plain message.content⟩])
      else .ok (system, msgs)
    else if message.role = "user" then
      .ok (system, msgs ++ [⟨message.role, .plain message.content⟩])
    else if message.role = "tool" then
      match truthy message.tool_call_id with
      | some cid =>
        .ok (system, msgs ++ [⟨"user", .blocks [.toolResult cid message.content]⟩])
      | none =>
        .ok (system, msgs ++ [⟨"user", .plain ("Tool result: " ++ message.content)⟩])
    else .ok (system, msgs)

/-- `AnthropicProvider._format_messages_for_provider`. -/
def anthFormatMessages (env : PyEnv) (messages : List ChatMsg) :
    Except String (Option String × List AnthOutMsg) :=
  messages.foldl (anthFormatStep env) (.ok (none, []))

/-- An Anthropic tool declaration (`_format_tools_for_provider` output). -/
structure AnthToolOut where
  name : String
  description : String
  input_schema : ParamSchema
deriving DecidableEq, Repr

/-- `AnthropicProvider._format_tools_for_provider`. -/
def anthFormatTools (tools : List ToolSpecDict) : List AnthToolOut :=
  tools.filterMap fun tool =>
    if tool.ttype = "function" then
      some ⟨tool.function.name, tool.function.description, tool.function.parameters⟩
    else none

/-- A content block of an Anthropic API response. -/
structure AnthBlock where
  btype : String
  text : String := ""
  name : String := ""
  input : ArgsDict := []
  id : String := ""
deriving DecidableEq, Repr

/-- Anthropic usage accounting. -/
structure AnthUsage where
  input_tokens : Nat
  output_tokens : Nat
deriving DecidableEq, Repr

/-- The final Anthropic message (`create` result or `get_final_message`). -/
structure AnthMessage where
  content : List AnthBlock
  usage : Option AnthUsage := none
deriving DecidableEq, Repr

/-- Outcome of the remote Anthropic call: a success (stream fragments, when
streaming, plus the final message) or one of the exception classes the
adapter catches. -/
inductive AnthApi where
  | ok (fragments : List String) (finalMessage : AnthMessage)
  | rateLimitError
  | authenticationError
  | apiError (msg : String)
  | otherError (msg : String)
deriving Repr

/-- The content/tool-call extraction loop over Anthropic response blocks. -/
def anthExtract (blocks : List AnthBlock) : String × List ToolCall :=
  blocks.foldl (fun acc block =>
    if block.btype = "text" then (acc.1 ++ block.text, acc.2)
    else if block.btype = "tool_use" then
      (acc.1, acc.2 ++ [⟨block.name, block.input, block.id⟩])
    else acc) ("", [])

/-- A `generate_response` return built from an except-branch of the adapter. -/
def errorResult (cfg : ProviderCfg) (messages : List ChatMsg) (content : String) :
    GenResult :=
  ⟨⟨content, [], some cfg.model, none⟩, [], messages⟩

/-- `AnthropicProvider.generate_response`. The adapter never raises: every
remote failure mode maps to a content-only `LLMResponse`. -/
def anthropicGenerateResponse (env : PyEnv) (cfg : ProviderCfg)
    (messages : List ChatMsg) (tools : Option (List ToolSpecDict))
    (hasHandler : Bool) (api : AnthApi) : GenResult :=
  match api with
  | .rateLimitError =>
    errorResult cfg messages "Rate limit exceeded. Please try again in a moment."
  | .authenticationError =>
    errorResult cfg messages "Authentication failed. Please check your Anthropic API key."
  | .apiError m => errorResult cfg messages ("Anthropic API error: " ++ m)
  | .otherError m => errorResult cfg messages ("Unexpected error: " ++ m)
  | .ok fragments finalMessage =>
    match anthFormatMessages env messages with
    | .error e =>
      -- the formatting exception is raised before any API call and lands in
      -- the generic `except Exception` branch; no fragment was streamed
      ⟨⟨"Unexpected error: " ++ e, [], some cfg.model, none⟩, [], messages⟩
    | .ok _ =>
      let _ := tools.map anthFormatTools
      let streamingMode := cfg.streaming && hasHandler
      let streamed := if streamingMode then fragments else []
      let extracted := anthExtract finalMessage.content
      let content := if extracted.1 = "" ∧ streamed ≠ [] then String.join streamed
        else extracted.1
      let usage := finalMessage.usage.map fun u =>
        [("input_tokens", u.input_tokens), ("output_tokens", u.output_tokens),
         ("total_tokens", u.input_tokens + u.output_tokens)]
      ⟨⟨content, extracted.2, some cfg.model, usage⟩, streamed, messages⟩

/-! ## OpenAI provider (openai_provider.py) -/

/-- A content part of an OpenAI Responses output message (field access via
`get_field` with absent attributes as `none`). -/
structure OAContentPart where
  ptype : Option String := none
  text : Option String := none
  refusal : Option String := none
  content : Option String := none
deriving DecidableEq, Repr

/-- `extract_text_from_content` (the nested helper in `generate_response`). -/
def extractTextFromContent (ci : OAContentPart) : Option String :=
  (if ci.ptype = some "output_text" ∨ ci.ptype = some "input_text" ∨
      ci.ptype = some "text" then truthy ci.text else none) <|>
  (if ci.ptype = some "refusal" then truthy ci.refusal else none) <|>
  truthy ci.text <|> truthy ci.content

/-- An output message `content` field: a raw string or a part array. -/
inductive OAMsgContent where
  | str (s : String)
  | parts (ps : List OAContentPart)
deriving DecidableEq, Repr

/-- A raw vendor argument payload: a serialized string or an already-decoded
object. -/
inductive OAArgVal where
  | str (s : String)
  | dict (d : ArgsDict)
deriving DecidableEq, Repr

/-- One reasoning summary entry. -/
structure OASummary where
  text : Option String := none
deriving DecidableEq, Repr

/-- One item of `response.output`. -/
structure OAOutputItem where
  otype : Option String := none
  mcontent : OAMsgContent := .parts []
  text : Option String := none
  name : Option String := none
  arguments : Option OAArgVal := none
  input : Option OAArgVal := none
  call_id : Option String := none
  id : Option String := none
  summary : List OASummary := []
deriving DecidableEq, Repr

/-- `ToolCall` id selection: `get_field(output, "call_id") or
get_field(output, "id")`, with the `ToolCall` default when both are falsy. -/
def oaCallIdOf (env : PyEnv) (item : OAOutputItem) (name : String) (args : ArgsDict) :
    String :=
  match truthy item.call_id <|> truthy item.id with
  | some cid => cid
  | none => defaultCallId env name args

/-- One iteration of the `for output in response.output` loop; the accumulator
is `(content_parts, tool_calls, reasoning_summaries)`. -/
def oaProcessItem (env : PyEnv) (acc : List String × List ToolCall × List String)
    (output : OAOutputItem) : List String × List ToolCall × List String :=
  let content_parts := acc.1
  let tool_calls := acc.2.1
  let reasoning := acc.2.2
  if output.otype = some "message" then
    match output.mcontent with
    | .str s =>
      if s ≠ "" then (content_parts ++ [s], tool_calls, reasoning) else acc
    | .parts ps =>
      (content_parts ++ ps.filterMap extractTextFromContent, tool_calls, reasoning)
  else if output.otype = some "output_text" ∨ output.otype = some "text" then
    match truthy output.text with
    | some t => (content_parts ++ [t], tool_calls, reasoning)
    | none => acc
  else if output.otype = some "function_call" then
    match output.name, output.arguments with
    | some nm, some (.str s) =>
      match env.jsonLoads s with
      | .ok args =>
        (content_parts, tool_calls ++ [⟨nm, args, oaCallIdOf env output nm args⟩],
         reasoning)
      | .error _ =>
        (content_parts ++ ["\\n\\nNote: Malformed tool call arguments: " ++ s],
         tool_calls, reasoning)
    | some nm, some (.dict args) =>
      (content_parts, tool_calls ++ [⟨nm, args, oaCallIdOf env output nm args⟩],
       reasoning)
    | _, _ => acc
  else if output.otype = some "custom_tool_call" then
    match output.name, output.input with
    | some nm, some raw =>
      let args := match raw with
        | .str s =>
          match env.jsonLoads s with
          | .ok d => d
          | .error _ => [("input", s)]
        | .dict d => d
      (content_parts, tool_calls ++ [⟨nm, args, oaCallIdOf env output nm args⟩],
       reasoning)
    | _, _ => acc
  else if output.otype = some "reasoning" then
    (content_parts, tool_calls, reasoning ++ output.summary.filterMap fun s => truthy s.text)
  else acc

/-- The explicit error object a Responses payload may carry. -/
structure OAError where
  code : Option String := none
  message : Option String := none
  asStr : String := ""
deriving DecidableEq, Repr

/-- OpenAI usage accounting. -/
structure OAUsage where
  input_tokens : Nat
  output_tokens : Nat
  total_tokens : Nat
deriving DecidableEq, Repr

/-- The final Responses payload. -/
structure OAResponse where
  error : Option OAError := none
  output : List OAOutputItem := []
  output_text : Option String := none
  status : Option String := none
  incomplete_details : Option String := none
  usage : Option OAUsage := none
deriving DecidableEq, Repr

/-- One streaming event. -/
structure OAEvent where
  etype : Option String := none
  delta : Option String := none
deriving DecidableEq, Repr

/-- Outcome of the remote OpenAI call. -/
inductive OAApi where
  | ok (events : List OAEvent) (finalResponse : OAResponse)
  | rateLimitError
  | authenticationError
  | apiError (msg : String)
  | otherError (msg : String)
deriving Repr

/-- The fragments appended and handed to the stream handler: text and refusal
deltas, when truthy. -/
def oaStreamedOf (events : List OAEvent) : List String :=
  events.filterMap fun e =>
    if e.etype = some "response.output_text.delta" ∨
       e.etype = some "response.refusal.delta" then truthy e.delta else none

/-- The `detail` suffix of the no-output fallback message. -/
def oaStatusDetail (resp : OAResponse) : String :=
  let detail :=
    match truthy resp.status with
    | some st => if st ≠ "completed" then " (status: " ++ st ++ ")" else ""
    | none => ""
  match truthy resp.incomplete_details with
  | some inc => detail ++ " (incomplete: " ++ inc ++ ")"
  | none => detail

/-- The final `if not content and not tool_calls:` fallback: the "no output"
condition is never returned silently, a synthesized message is substituted. -/
def oaFinalContent (resp : OAResponse) (content4 : String)
    (tool_calls : List ToolCall) : String :=
  if content4 = "" ∧ tool_calls = [] then
    "No response generated by OpenAI." ++ oaStatusDetail resp ++
      " Try another model or run with --debug for details."
  else content4

/-- The response-construction tail of `OpenAIProvider.generate_response`:
the explicit error object check, the output extraction loop, and the
cascade of content fallbacks. -/
def oaBuildResponse (env : PyEnv) (model : String) (streamed : List String)
    (resp : OAResponse) : LLMResponse :=
  match resp.error with
  | some err =>
    ⟨"OpenAI response error (" ++ err.code.getD "unknown_error" ++ "): " ++
      err.message.getD err.asStr, [], some model, none⟩
  | none =>
    let processed := resp.output.foldl (oaProcessItem env) ([], [], [])
    let tool_calls := processed.2.1
    let reasoning := processed.2.2
    let content1 := String.join processed.1
    let content2 := if content1 = "" ∧ streamed ≠ [] then String.join streamed
      else content1
    let content3 := if content2 = "" then
        match truthy resp.output_text with
        | some t => t
        | none => content2
      else content2
    let content4 := if content3 = "" ∧ tool_calls = [] ∧ reasoning ≠ [] then
        "Reasoning summary (no final text output): " ++ String.intercalate " " reasoning
      else content3
    let usage := resp.usage.map fun u =>
      [("prompt_tokens", u.input_tokens), ("completion_tokens", u.output_tokens),
       ("total_tokens", u.total_tokens)]
    ⟨oaFinalContent resp content4 tool_calls, tool_calls, some model, usage⟩

/-- One item of the Responses API input (`_format_messages_for_responses`). -/
inductive OAInputItem where
  | message (role : String) (parts : List (String × String)) (status : Option String)
      (id : Option String)
  | functionCall (call_id name arguments : String)
  | functionCallOutput (call_id output : String)
deriving DecidableEq, Repr

/-- `make_message_item` with its `assistant_msg_index` counter. -/
def oaMakeMessageItem (assistantIdx : Nat) (role content : String) :
    OAInputItem × Nat :=
  if role = "assistant" then
    (.message "assistant" [("output_text", content)] (some "completed")
      (some ("assistant_msg_" ++ toString (assistantIdx + 1))), assistantIdx + 1)
  else (.message role [("input_text", content)] none none, assistantIdx)

/-- The message loop of `_format_messages_for_responses`. -/
def oaFormatAux : List ChatMsg → Nat → List OAInputItem → List OAInputItem
  | [], _, acc => acc
  | message :: rest, idx, acc =>
    let roleMatch := message.role = "system" ∨ message.role = "user" ∨
      message.role = "assistant" ∨ message.role = "developer"
    let step1 :=
      if roleMatch ∧ message.content ≠ "" then
        let mi := oaMakeMessageItem idx message.role message.content
        (acc ++ [mi.1], mi.2)
      else (acc, idx)
    let acc2 := step1.1 ++ message.tool_calls.filterMap fun tc =>
      if tc.id ≠ "" ∧ tc.name ≠ "" then
        some (.functionCall tc.id tc.name tc.arguments)
      else none
    let acc3 :=
      if message.role = "tool" then
        match truthy message.tool_call_id with
        | some cid => acc2 ++ [.functionCallOutput cid message.content]
        | none =>
          if message.content ≠ "" then
            acc2 ++ [(oaMakeMessageItem step1.2 "user"
              ("Tool result: " ++ message.content)).1]
          else acc2
      else acc2
    oaFormatAux rest step1.2 acc3

/-- `OpenAIProvider._format_messages_for_responses`. -/
def oaFormatMessages (messages : List ChatMsg) : List OAInputItem :=
  oaFormatAux messages 0 []

/-- `OpenAIProvider.generate_response`. -/
def openaiGenerateResponse (env : PyEnv) (cfg : ProviderCfg)
    (messages : List ChatMsg) (tools : Option (List ToolSpecDict))
    (hasHandler : Bool) (api : OAApi) : GenResult :=
  match api with
  | .rateLimitError =>
    errorResult cfg messages "Rate limit exceeded. Please try again in a moment."
  | .authenticationError =>
    errorResult cfg messages "Authentication failed. Please check your OpenAI API key."
  | .apiError m => errorResult cfg messages ("OpenAI API error: " ++ m)
  | .otherError m => errorResult cfg messages ("Unexpected error: " ++ m)
  | .ok events finalResponse =>
    let instruction_parts := messages.filterMap fun m =>
      if m.role = "system" ∨ m.role = "developer" then truthy (some m.content) else none
    let input_messages := messages.filter fun m =>
      ¬(m.role = "system" ∨ m.role = "developer")
    let inputItems :=
      oaFormatMessages (if input_messages ≠ [] then input_messages else messages)
    let _ := instruction_parts
    let _ := inputItems
    let _ := tools
    let streamingMode := cfg.streaming && hasHandler
    let streamed := if streamingMode then oaStreamedOf events else []
    ⟨oaBuildResponse env cfg.model streamed finalResponse, streamed, messages⟩

/-! ## Google provider (google_provider.py) -/

/-- A native Google function call part. -/
structure GFuncCall where
  name : String
  args : ArgsDict
deriving DecidableEq, Repr

/-- One part of a Google candidate content. -/
structure GPart where
  text : Option String := none
  function_call : Option GFuncCall := none
deriving DecidableEq, Repr

/-- The `content` of a Google candidate. -/
structure GInContent where
  parts : List GPart
deriving DecidableEq, Repr

/-- One response candidate. -/
structure GCandidate where
  content : Option GInContent := none
deriving DecidableEq, Repr

/-- Google usage metadata, with possibly-absent counters. -/
structure GUsageMeta where
  prompt_token_count : Option Nat := none
  candidates_token_count : Option Nat := none
  total_token_count : Option Nat := none
deriving DecidableEq, Repr

/-- A Google response object (also the shape of one streaming chunk). -/
structure GResponse where
  text : Option String := none
  candidates : List GCandidate := []
  usage_metadata : Option GUsageMeta := none
deriving DecidableEq, Repr

/-- Outcome of the remote Google call: the streamed chunks (used when
streaming) and the plain response (used otherwise), or the single caught
exception with its message. -/
inductive GApi where
  | ok (chunks : List GResponse) (plainResponse : GResponse)
  | raised (msg : String)
deriving Repr

/-- `GoogleProvider.is_gemma_model`. -/
def isGemmaModel (model : String) : Bool := containsSub (pyLower model) "gemma"

/-- Python truthiness of the optional tools list (`if ... and tools:`). -/
def toolsTruthy (tools : Option (List ToolSpecDict)) : Bool :=
  match tools with
  | some l => !l.isEmpty
  | none => false

/-- A part of the Google request format. -/
inductive GPartOut where
  | text (s : String)
  | functionCall (name : String) (args : ArgsDict)
  | functionResponse (name : String) (response : List (String × String))
deriving DecidableEq, Repr

/-- One turn of the Google request format. -/
structure GContentOut where
  role : String
  parts : List GPartOut
deriving DecidableEq, Repr

/-- Decoding of a serialized tool-call arguments string in the Google
formatter: `json.loads` with `JSONDecodeError` mapped to `{}`. -/
def gArgsOf (env : PyEnv) (argumentsStr : String) : ArgsDict :=
  match env.jsonLoads argumentsStr with
  | .ok d => d
  | .error _ => []

/-- One step of `GoogleProvider._format_messages_for_provider`; the state is
`(contents, tool_id_to_name)` with newest id bindings in front. -/
def googleFormatStep (env : PyEnv) (gemma : Bool)
    (st : List GContentOut × List (String × String)) (message : ChatMsg) :
    List GContentOut × List (String × String) :=
  let contents := st.1
  let idmap := st.2
  if message.role = "system" then
    (contents ++ [⟨"user", [.text ("System: " ++ message.content)]⟩], idmap)
  else if message.role = "user" then
    (contents ++ [⟨"user", [.text message.content]⟩], idmap)
  else if message.role = "assistant" then
    let parts0 : List GPartOut :=
      if message.content ≠ "" then [.text message.content] else []
    let idmap2 := message.tool_calls.foldl (fun m tc =>
      if tc.id ≠ "" then (tc.id, tc.name) :: m else m) idmap
    let parts :=
      if message.tool_calls ≠ [] then
        if gemma then
          let tool_uses := message.tool_calls.map fun tc =>
            (tc.name, gArgsOf env tc.arguments)
          parts0 ++ [.text ("```json\n" ++ env.dumpsToolUses tool_uses ++ "\n```")]
        else
          parts0 ++ message.tool_calls.map fun tc =>
            .functionCall tc.name (gArgsOf env tc.arguments)
      else parts0
    if parts ≠ [] then (contents ++ [⟨"model", parts⟩], idmap2) else (contents, idmap2)
  else if message.role = "tool" then
    let name? := message.tool_call_id.bind fun cid => idmap.lookup cid
    if gemma then
      (contents ++ [⟨"user",
        [.text ("Tool Result (" ++ name?.getD "unknown" ++ "):\n" ++ message.content)]⟩],
       idmap)
    else
      match name? with
      | none =>
        (contents ++ [⟨"user",
          [.text ("Tool Result (unknown function): " ++ message.content)]⟩], idmap)
      | some nm =>
        (contents ++ [⟨"user",
          [.functionResponse nm [("content", message.content)]]⟩], idmap)
  else (contents, idmap)

/-- The adjacent same-role merge at the end of
`_format_messages_for_provider`. -/
def gMergeAdjacent : List GContentOut → List GContentOut
  | [] => []
  | c :: rest => go c rest
where
  go : GContentOut → List GContentOut → List GContentOut
  | cur, [] => [cur]
  | cur, n :: rest =>
    if n.role = cur.role then go ⟨cur.role, cur.parts ++ n.parts⟩ rest
    else cur :: go n rest

/-- `GoogleProvider._format_messages_for_provider`. -/
def googleFormatMessages (env : PyEnv) (gemma : Bool) (messages : List ChatMsg) :
    List GContentOut :=
  gMergeAdjacent (messages.foldl (googleFormatStep env gemma) ([], [])).1

/-- `GoogleProvider._format_tools_for_system_prompt`. -/
def formatToolsForSystemPrompt (env : PyEnv) (tools : List ToolSpecDict) : String :=
  let toolLines := tools.foldl (fun acc tool =>
    if tool.ttype = "function" then
      acc ++ "- Name: " ++ tool.function.name ++ "\n  Description: " ++
        tool.function.description ++ "\n  Parameters: " ++
        env.dumpsSchema tool.function.name ++ "\n\n"
    else acc) "\n\nAVAILABLE TOOLS:\n"
  toolLines ++ "TOOL USAGE INSTRUCTIONS:\n" ++
  "To use a tool, you MUST respond with a JSON object wrapped in markdown code blocks like this:\n" ++
  "```json\n" ++
  "\x7b\n  \"tool_uses\": [\n    \x7b\n      \"tool_name\": \"example_tool\",\n      \"arguments\": \x7b\n        \"param1\": \"value1\"\n      \x7d\n    \x7d\n  ]\n\x7d\n" ++
  "```\n" ++
  "If you are not using a tool, do not output this JSON format."

/-- The gemma path that injects the tool prompt into (a copy of) the message
list: the first system message is extended, or a new one is prepended. -/
def injectGemmaPrompt (toolPrompt : String) (messages : List ChatMsg) :
    List ChatMsg :=
  if messages.any (fun m => m.role = "system") then go messages
  else ⟨"system", toolPrompt, [], none⟩ :: messages
where
  go : List ChatMsg → List ChatMsg
  | [] => []
  | m :: rest =>
    if m.role = "system" then { m with content := m.content ++ toolPrompt } :: rest
    else m :: go rest

/-- The opening marker of a gemma tool-call fence. -/
def gMarker : List Char := ['`', '`', '`', 'j', 's', 'o', 'n']

/-- A closing fence. -/
def gFence : List Char := ['`', '`', '`']

/-- Skip leading whitespace (the `\s*` of the gemma block pattern). -/
def gSkipWs : List Char → List Char
  | [] => []
  | c :: rest => if c.isWhitespace then gSkipWs rest else c :: rest

/-- Try to read `}` followed by optional whitespace and a closing fence;
returns the remainder after the fence on success. -/
def gCloseAt : List Char → Option (List Char)
  | [] => none
  | c :: rest =>
    if c = '}' then
      let rest2 := gSkipWs rest
      if gFence.isPrefixOf rest2 then some (rest2.drop 3) else none
    else none

/-- Scan a block body after the opening `{`, accumulating in reverse, up to
the earliest closing position (the non-greedy `.*?`). -/
def gBody : List Char → List Char → Option (List Char × List Char)
  | [], _ => none
  | c :: rest, racc =>
    match gCloseAt (c :: rest) with
    | some rem => some (('}' :: racc).reverse, rem)
    | none => gBody rest (c :: racc)

/-- Fuel-driven scan for fenced blocks; every step consumes at least one
input character, so the initial fuel `length` always suffices. -/
def gExtractGo : Nat → List Char → List String
  | 0, _ => []
  | _, [] => []
  | fuel + 1, c :: rest =>
    if gMarker.isPrefixOf (c :: rest) then
      match gSkipWs ((c :: rest).drop 7) with
      | '{' :: inner =>
        match gBody inner ['{'] with
        | some (block, rem) => String.mk block :: gExtractGo fuel rem
        | none => gExtractGo fuel rest
      | _ => gExtractGo fuel rest
    else gExtractGo fuel rest

/-- The fenced ```json blocks a gemma reply text is scanned for
(`re.findall` of the DOTALL pattern matching ```json, optional whitespace, a
brace-delimited non-greedy body, optional whitespace and a closing fence). -/
def extractJsonBlocks (text : String) : List String :=
  gExtractGo text.data.length text.data

/-- `GoogleProvider._parse_tool_calls_from_text`: decode each fenced block,
read its `tool_uses`, and build a `ToolCall` for every entry with a truthy
`tool_name`; decode failures are skipped. -/
def parseToolCallsFromText (env : PyEnv) (text : String) : List ToolCall :=
  (extractJsonBlocks text).foldl (fun acc block =>
    match env.jsonLoadsToolUses block with
    | some uses =>
      acc ++ uses.foldl (fun a use =>
        match truthy use.1 with
        | some nm => a ++ [⟨nm, use.2, defaultCallId env nm use.2⟩]
        | none => a) []
    | none => acc) []

/-- The per-part extraction loop over the first candidate of a Google
response; the accumulator is `(content, tool_calls)` with `content` seeded
from the streamed fragments. -/
def gProcessPart (env : PyEnv) (gemma : Bool) (acc : String × List ToolCall)
    (part : GPart) : String × List ToolCall :=
  let afterText :=
    match truthy part.text with
    | some t =>
      let content := if acc.1 = "" then acc.1 ++ t else acc.1
      let tool_calls :=
        if gemma then acc.2 ++ parseToolCallsFromText env t else acc.2
      (content, tool_calls)
    | none => acc
  match part.function_call with
  | some fc =>
    (afterText.1, afterText.2 ++ [⟨fc.name, fc.args, defaultCallId env fc.name fc.args⟩])
  | none => afterText

/-- The response the google extraction works on: the last streamed chunk when
streaming, else the plain response. -/
def gEffectiveResponse (streamingMode : Bool) (chunks : List GResponse)
    (plainResponse : GResponse) : Option GResponse :=
  if streamingMode then chunks.getLast? else some plainResponse

/-- The streamed fragments: chunk texts, when truthy. -/
def gStreamedOf (chunks : List GResponse) : List String :=
  chunks.filterMap fun c => truthy c.text

/-- The exception-message rewriting of the google `except` branch. -/
def googleRewriteError (msg : String) : String :=
  if containsSub msg "API_KEY_INVALID" then
    "Invalid Google AI API key. Please check your configuration."
  else if containsSub msg "429" ∨ containsSub (pyLower msg) "quota" then
    "API quota exceeded. Please try again later."
  else if containsSub (pyLower msg) "blocked" then
    "Content was blocked by Google\x27s safety filters."
  else msg

/-- `GoogleProvider.generate_response`. -/
def googleGenerateResponse (env : PyEnv) (cfg : ProviderCfg)
    (messages : List ChatMsg) (tools : Option (List ToolSpecDict))
    (hasHandler : Bool) (api : GApi) : GenResult :=
  match api with
  | .raised msg =>
    errorResult cfg messages ("Google AI error: " ++ googleRewriteError msg)
  | .ok chunks plainResponse =>
    let gemma := isGemmaModel cfg.model
    let googleMessages :=
      if gemma && toolsTruthy tools then
        let toolPrompt := formatToolsForSystemPrompt env (tools.getD [])
        -- the source copies the message list before injecting, precisely so
        -- the caller's list is left untouched
        googleFormatMessages env gemma (injectGemmaPrompt toolPrompt messages)
      else googleFormatMessages env gemma messages
    let _ := googleMessages
    let streamingMode := cfg.streaming && hasHandler
    let streamed := if streamingMode then gStreamedOf chunks else []
    let content0 := String.join streamed
    match gEffectiveResponse streamingMode chunks plainResponse with
    | some resp =>
      match resp.candidates with
      | candidate :: _ =>
        let extracted :=
          match candidate.content with
          | some cc =>
            if cc.parts ≠ [] then
              cc.parts.foldl (gProcessPart env gemma) (content0, [])
            else (content0, [])
          | none => (content0, [])
        let usage := resp.usage_metadata.map fun u =>
          [("prompt_tokens", u.prompt_token_count.getD 0),
           ("completion_tokens", u.candidates_token_count.getD 0),
           ("total_tokens", u.total_token_count.getD 0)]
        ⟨⟨extracted.1, extracted.2, some cfg.model, usage⟩, streamed, messages⟩
      | [] =>
        ⟨⟨"No response generated. Content may have been blocked by safety filters.",
          [], some cfg.model, none⟩, streamed, messages⟩
    | none =>
      ⟨⟨"No response generated. Content may have been blocked by safety filters.",
        [], some cfg.model, none⟩, streamed, messages⟩

/-! ## Conversation orchestrator (llm_handler.py) -/

/-- The slice of `HashConfig` the orchestrator reads during a chat turn. -/
structure OrchConfig where
  require_confirmation : Bool
  allow_command_execution : Bool
  show_debug : Bool
deriving DecidableEq, Repr

/-- `LLMHandler._get_system_prompt`. -/
def systemPrompt : String :=
  "You are Hash, an intelligent terminal assistant designed to help users with command-line tasks, programming, system administration, and general technical questions.\n\nKey capabilities:\n- Execute shell commands (with user permission)\n- Read and analyze files\n- Search the web for current information  \n- Provide programming assistance\n- Debug and troubleshoot issues\n- Explain complex technical concepts\n\nGuidelines:\n- Be concise but thorough in your responses\n- Always ask for confirmation before executing potentially destructive commands\n- Provide command explanations when helpful\n- Suggest alternatives when appropriate\n- Prioritize security and best practices\n- Indicate when you\x27re unsure and suggest verification steps\n\nYou have access to tools that can interact with the system. Use them appropriately to assist the user effectively."

/-- The system message heading every conversation context. -/
def systemMessage : ChatMsg := ⟨"system", systemPrompt, [], none⟩

/-- The shell tool spec of `_get_available_tools`. -/
def shellToolSpec : ToolSpecDict :=
  ⟨"function",
   ⟨"execute_shell_command",
    "Execute a shell command and return its output. Use with caution.",
    ⟨"object",
     [("command", ⟨"string", "The shell command to execute", none⟩),
      ("description", ⟨"string", "Brief description of what this command does", none⟩)],
     ["command", "description"]⟩⟩⟩

/-- The `read_file` tool spec. -/
def readFileToolSpec : ToolSpecDict :=
  ⟨"function",
   ⟨"read_file", "Read the contents of a text file",
    ⟨"object", [("file_path", ⟨"string", "Path to the file to read", none⟩)],
     ["file_path"]⟩⟩⟩

/-- The `write_file` tool spec. -/
def writeFileToolSpec : ToolSpecDict :=
  ⟨"function",
   ⟨"write_file", "Write content to a text file",
    ⟨"object",
     [("file_path", ⟨"string", "Path to the file to write", none⟩),
      ("content", ⟨"string", "Content to write to the file", none⟩)],
     ["file_path", "content"]⟩⟩⟩

/-- The `list_directory` tool spec. -/
def listDirectoryToolSpec : ToolSpecDict :=
  ⟨"function",
   ⟨"list_directory", "List contents of a directory",
    ⟨"object",
     [("directory_path", ⟨"string", "Path to the directory to list", none⟩),
      ("show_hidden", ⟨"boolean", "Whether to show hidden files", some false⟩)],
     ["directory_path"]⟩⟩⟩

/-- `LLMHandler._get_available_tools`: the shell tool when command execution
is allowed, then the filesystem tools. -/
def getAvailableTools (cfg : OrchConfig) : List ToolSpecDict :=
  (if cfg.allow_command_execution then [shellToolSpec] else []) ++
  [readFileToolSpec, writeFileToolSpec, listDirectoryToolSpec]

/-- The history collaborator interface (spec section 6), as oracles that can
raise. Session arguments are passed as the orchestrator holds them
(`Option`, since `current_session_id` starts as `None`). -/
structure HistoryOracle where
  start_session : Except String Nat
  add_message : Option Nat → String → String → Except String Unit
  get_recent_messages : Option Nat → Nat → Except String (List ChatMsg)

/-- Everything a chat turn depends on: configuration, collaborators and
oracles for the effectful boundaries. `requiresConfirmation` mirrors
`Tool.requires_confirmation` by tool name; `execTool` is
`get_tool_executor(name).execute(...)`, with `.error` covering both a raised
exception and a missing executor; `confirm` is `_get_user_confirmation`;
`traceback` is what `traceback.format_exc()` would render. -/
structure ChatDeps where
  env : PyEnv
  cfg : OrchConfig
  history : Option HistoryOracle
  currentSession : Option Nat
  gen : List ChatMsg → Option (List ToolSpecDict) → Except String LLMResponse
  confirm : ToolCall → Bool
  execTool : ToolCall → Except String String
  requiresConfirmation : String → Bool
  traceback : String

/-- One tool result record `{"tool_call_id", "output"}`. -/
structure ToolResultRec where
  tool_call_id : String
  output : String
deriving DecidableEq, Repr

/-- The result `_handle_tool_calls` records for a call when it is executed
(or raises) — the confirmation gate aside. -/
def execResultOf (d : ChatDeps) (tc : ToolCall) : ToolResultRec :=
  match d.execTool tc with
  | .ok r => ⟨tc.call_id, r⟩
  | .error e => ⟨tc.call_id, "Error executing tool: " ++ e⟩

/-- Resolution of a single tool call: the produced result record together
with the confirmation solicitations made (the prompt is shown exactly when
`config.require_confirmation` is set). -/
def resolveToolCall (d : ChatDeps) (tc : ToolCall) : ToolResultRec × List ToolCall :=
  if d.cfg.require_confirmation then
    if d.confirm tc then (execResultOf d tc, [tc])
    else (⟨tc.call_id, "User declined to execute this tool call."⟩, [tc])
  else (execResultOf d tc, [])

/-- The `for tool_call in response.tool_calls` loop, in emission order. -/
def resolveToolCalls (d : ChatDeps) : List ToolCall → List ToolResultRec × List ToolCall
  | [] => ([], [])
  | tc :: rest =>
    let r := resolveToolCall d tc
    let rs := resolveToolCalls d rest
    (r.1 :: rs.1, r.2 ++ rs.2)

/-- The single assistant-with-tool-calls message appended before the
follow-up call. -/
def assistantToolMsg (env : PyEnv) (response : LLMResponse) : ChatMsg :=
  ⟨"assistant", response.content,
   response.tool_calls.map fun tc =>
     ⟨tc.call_id, "function", tc.name, env.jsonDumps tc.arguments⟩,
   none⟩

/-- One tool-result message per resolved call. -/
def toolResultMsg (r : ToolResultRec) : ChatMsg :=
  ⟨"tool", r.output, [], some r.tool_call_id⟩

/-- `LLMHandler._handle_tool_calls`: resolve every call, append the assistant
message plus the tool-result messages to the context, and issue the follow-up
`generate_response` (with no tools argument). Also returns the confirmation
solicitations made. -/
def handleToolCalls (d : ChatDeps) (response : LLMResponse)
    (context_messages : List ChatMsg) : Except String LLMResponse × List ToolCall :=
  let resolved := resolveToolCalls d response.tool_calls
  let messages_with_tools := context_messages ++ [assistantToolMsg d.env response] ++
    resolved.1.map toolResultMsg
  (d.gen messages_with_tools none, resolved.2)

/-- `LLMHandler._get_conversation_context`: the system message plus the
recent session messages when history is active. -/
def getConversationContext (d : ChatDeps) (cs : Option Nat) :
    Except String (List ChatMsg) :=
  match d.history, cs with
  | some h, some sid =>
    match h.get_recent_messages (some sid) 20 with
    | .ok recent => .ok ([systemMessage] ++ recent)
    | .error e => .error e
  | _, _ => .ok [systemMessage]

/-- The body of `LLMHandler.chat` inside its `try`: an `.error` is an
exception reaching the orchestrator boundary. -/
def chatBody (d : ChatDeps) (message : String) : Except String String :=
  let csE : Except String (Option Nat) :=
    match d.history, d.currentSession with
    | some h, none =>
      match h.start_session with
      | .ok s => .ok (some s)
      | .error e => .error e
    | _, c => .ok c
  match csE with
  | .error e => .error e
  | .ok cs =>
    let addE : Except String Unit :=
      match d.history with
      | some h => h.add_message cs "user" message
      | none => .ok ()
    match addE with
    | .error e => .error e
    | .ok _ =>
      match getConversationContext d cs with
      | .error e => .error e
      | .ok context_messages =>
        match d.gen context_messages (some (getAvailableTools d.cfg)) with
        | .error e => .error e
        | .ok response =>
          let afterToolsE : Except String LLMResponse :=
            if response.tool_calls ≠ [] then
              (handleToolCalls d response context_messages).1
            else .ok response
          match afterToolsE with
          | .error e => .error e
          | .ok response2 =>
            let add2E : Except String Unit :=
              match d.history with
              | some h => h.add_message cs "assistant" response2.content
              | none => .ok ()
            match add2E with
            | .error e => .error e
            | .ok _ => .ok response2.content

/-- `LLMHandler.chat`: the `try`/`except` boundary that turns any exception
into an `"LLM Error: ..."` string (with a traceback appended when
`show_debug` is set). -/
def chat (d : ChatDeps) (message : String) : String :=
  match chatBody d message with
  | .ok s => s
  | .error e =>
    let error_msg := "LLM Error: " ++ e
    if d.cfg.show_debug then error_msg ++ "\nDebug info: " ++ d.traceback
    else error_msg

/-! ## Helper lemmas -/

/-- A string with non-empty character data is not `""`. -/
theorem str_ne_empty_of_data_ne {s : String} (h : s.data ≠ []) : s ≠ "" := by
  intro hc
  subst hc
  exact h rfl

/-- Appending to a non-empty string stays non-empty. -/
theorem append_ne_empty_left (a b : String) (h : a ≠ "") : a ++ b ≠ "" := by
  intro hc
  apply h
  have hd := congrArg String.data hc
  rw [String.data_append] at hd
  have h2 : a.data = [] := (List.append_eq_nil.mp hd).1
  cases a
  simp_all

/-- Bridge between the Boolean `containsSub` and list infixes. -/
theorem containsSub_of_within {s p : String} (h : p.data <:+: s.data) :
    containsSub s p = true := by
  simpa [containsSub] using h

/-- An infix whose characters are `toLower`-fixed stays an infix after
`pyLower`. -/
theorem infix_pyLower {p s : String} (hfix : p.data.map Char.toLower = p.data)
    (h : p.data <:+: s.data) : p.data <:+: (pyLower s).data := by
  have hm := h.map Char.toLower
  rwa [hfix] at hm

/-- Every fixed dangerous pattern is non-empty and `toLower`-fixed. -/
theorem dangerous_pattern_props {p : String} (hp : p ∈ dangerousPatterns) :
    p.data ≠ [] ∧ p.data.map Char.toLower = p.data := by
  fin_cases hp <;> exact ⟨by decide, by decide⟩

/-- The allow-list check never returns an empty message. -/
theorem allowedListCheck_ne_empty {command : String} {config : ShellConfig}
    {msg : String} (h : allowedListCheck command config = some msg) : msg ≠ "" := by
  unfold allowedListCheck at h
  split at h
  · split at h
    · exact absurd h (by simp)
    · split at h
      · rw [show msg = "Command not in allowed list: " ++ _ from (Option.some.inj h).symm]
        exact append_ne_empty_left _ _ (by decide)
      · exact absurd h (by simp)
  · exact absurd h (by simp)

/-- If some dangerous pattern occurs in the lowered command, the security
validation returns a non-empty rejection message. -/
theorem validate_ne_empty_of_dangerous {command : String} {config : ShellConfig}
    {p : String} (hmem : p ∈ dangerousList config)
    (hfix : p.data.map Char.toLower = p.data)
    (hin : p.data <:+: command.data) :
    validateCommandSecurity command config ≠ "" := by
  obtain ⟨q, hq⟩ : ∃ q, (dangerousList config).find?
      (fun pat => containsSub (pyLower command) pat) = some q := by
    rcases hf : (dangerousList config).find?
        (fun pat => containsSub (pyLower command) pat) with _ | q
    · exact absurd (containsSub_of_within (infix_pyLower hfix hin))
        (by simpa using List.find?_eq_none.mp hf p hmem)
    · exact ⟨q, rfl⟩
  simp only [validateCommandSecurity]
  rcases hb : (config.blocked_commands.find?
      (fun b => containsSub (pyLower command) (pyLower b))) with _ | blocked
  · rcases ha : allowedListCheck command config with _ | msg
    · simp only [hb, ha, hq]
      exact append_ne_empty_left _ _ (by decide)
    · simp only [hb, ha]
      exact allowedListCheck_ne_empty ha
  · simp only [hb]
    exact append_ne_empty_left _ _ (by decide)

/-- A non-empty security validation message forces the rejected outcome. -/
theorem shellExecute_rejected_of_validate {command : String} {cfg : ShellConfig}
    (hcmd : command ≠ "")
    (hval : validateCommandSecurity command cfg ≠ "") :
    (shellExecute command cfg).isRejected = true := by
  by_cases h1 : cfg.allow_command_execution = false
  · simp [shellExecute, h1, ShellOutcome.isRejected]
  · simp only [shellExecute, if_neg h1, if_neg hcmd, if_pos hval]
    rfl

/-- A pattern occurring in a command forces the command to be non-empty. -/
theorem command_ne_empty_of_within {p command : String} (hne : p.data ≠ [])
    (hin : p.data <:+: command.data) : command ≠ "" := by
  apply str_ne_empty_of_data_ne
  intro hc
  rw [hc] at hin
  exact hne (List.eq_nil_of_infix_nil hin)

/-- C2 (confirmed): for every command string containing one of the fixed
dangerous substrings and every configuration — whatever the blocked and
allowed command lists are — `ShellTool.execute` returns a rejection string
and never spawns a subprocess (neither via shell nor via argv). -/
theorem C2_dangerous_substring_never_spawns (command : String) (cfg : ShellConfig)
    (p : String) (hp : p ∈ dangerousPatterns) (hin : p.data <:+: command.data) :
    (shellExecute command cfg).isRejected = true := by
  obtain ⟨hne, hfix⟩ := dangerous_pattern_props hp
  have hcmd : command ≠ "" := command_ne_empty_of_within hne hin
  have hmem : p ∈ dangerousList cfg := List.mem_append_left _ hp
  exact shellExecute_rejected_of_validate hcmd
    (validate_ne_empty_of_dangerous hmem hfix hin)

/-- The repository default security configuration
(`blocked_commands = ["rm -rf", "sudo", "su"]`, no allow-list, operators
disabled by default absence). -/
def cfgDefaults : ShellConfig := ⟨true, false, ["rm -rf", "sudo", "su"], none, 30⟩

/-- Witness for C2: `"sudo rm -rf /tmp/x"` contains the dangerous substring
`"sudo rm"` and is rejected without any spawn. -/
theorem C2_dangerous_substring_never_spawns_witness :
    ("sudo rm" ∈ dangerousPatterns ∧
      "sudo rm".data <:+: ("sudo rm -rf /tmp/x" : String).data) ∧
    (shellExecute "sudo rm -rf /tmp/x" cfgDefaults).isRejected = true :=
  ⟨⟨by decide, by decide⟩,
   C2_dangerous_substring_never_spawns "sudo rm -rf /tmp/x" cfgDefaults "sudo rm"
     (by decide) (by decide)⟩

/-- A configuration with shell operators disabled and empty block list. -/
def cfgNoOperators : ShellConfig := ⟨true, false, [], none, 30⟩

/-- C1 counterexample: with `allow_shell_operators = false` the command
`"ls | wc"` is NOT tokenized and spawned via argv as the claim states — the
security gate rejects it as a dangerous pattern and no process is spawned at
all. -/
theorem C1_counterexample_pipe_rejected :
    shellExecute "ls | wc" cfgNoOperators =
      ShellOutcome.rejected "Potentially dangerous command pattern detected: |" := by
  decide

/-- C1 (corrected): when `allow_shell_operators` is false, every command
containing `|` or `;` is rejected by the security gate (`execute` returns a
rejection string) and no subprocess is spawned at all — in particular it is
never executed via shell interpretation. -/
theorem C1_operators_rejected_never_shell (command : String) (cfg : ShellConfig)
    (hops : cfg.allow_shell_operators = false)
    (h : "|".data <:+: command.data ∨ ";".data <:+: command.data) :
    (shellExecute command cfg).isRejected = true := by
  obtain ⟨p, hp, hin⟩ : ∃ p, p ∈ ([";", "|"] : List String) ∧ p.data <:+: command.data := by
    rcases h with h | h
    · exact ⟨"|", by decide, h⟩
    · exact ⟨";", by decide, h⟩
  have hprops : p.data ≠ [] ∧ p.data.map Char.toLower = p.data := by
    fin_cases hp <;> exact ⟨by decide, by decide⟩
  have hmem : p ∈ dangerousList cfg := by
    have : dangerousList cfg = dangerousPatterns ++ [";", "|"] := by
      simp [dangerousList, hops]
    rw [this]
    exact List.mem_append_right _ hp
  exact shellExecute_rejected_of_validate (command_ne_empty_of_within hprops.1 hin)
    (validate_ne_empty_of_dangerous hmem hprops.2 hin)

/-- Witness for C1 (amended): a `;`-joined command is rejected without any
spawn when operators are disabled. -/
theorem C1_operators_rejected_never_shell_witness :
    cfgNoOperators.allow_shell_operators = false ∧
    (shellExecute "cat a.txt; echo hi" cfgNoOperators).isRejected = true :=
  ⟨rfl, C1_operators_rejected_never_shell "cat a.txt; echo hi" cfgNoOperators rfl
    (Or.inr (by decide))⟩

/-- C7 (confirmed): for the filesystem tool, a read whose resolved path
matches a sensitive pattern returns the denial string and never reaches the
`open` call. -/
theorem C7_sensitive_read_denied (fp : String) (fs : FsState) (args : FsArgs)
    (hfp : args.file_path = some fp) (hc : args.content = none)
    (hfpne : fp ≠ "")
    (hsens : isSensitiveFile (fs.resolve fp) = true) :
    fsExecute args fs = .read (.denied (fs.resolve fp)) ∧
    readOutcomeMessage fs (readFileOutcome fp fs) =
      "Access to sensitive file denied: " ++ fs.resolve fp := by
  have hread : readFileOutcome fp fs = .denied (fs.resolve fp) := by
    simp only [readFileOutcome, if_neg hfpne, if_pos hsens]
  refine ⟨?_, by rw [hread]; rfl⟩
  unfold fsExecute
  simp only [hfp, hc]
  rw [hread]

/-- A concrete filesystem in which every path exists, is a small readable
file, and resolution is the identity. -/
def fsProbe : FsState :=
  ⟨id, fun _ => true, fun _ => true, fun _ => true, fun _ => 10, fun _ => "root:x:0:0"⟩

/-- Witness for C7 at `/etc/passwd`. -/
theorem C7_sensitive_read_denied_witness :
    fsExecute ⟨some "/etc/passwd", none, none⟩ fsProbe =
      .read (.denied (fsProbe.resolve "/etc/passwd")) ∧
    readOutcomeMessage fsProbe (readFileOutcome "/etc/passwd" fsProbe) =
      "Access to sensitive file denied: " ++ fsProbe.resolve "/etc/passwd" :=
  C7_sensitive_read_denied "/etc/passwd" fsProbe ⟨some "/etc/passwd", none, none⟩
    rfl rfl (by decide) (by decide)

/-- The openai no-output substitution: an empty final content forces a
non-empty tool-call list. -/
theorem oaFinalContent_ne_of_empty {resp : OAResponse} {c4 : String}
    {tc : List ToolCall} (h : oaFinalContent resp c4 tc = "") : tc ≠ [] := by
  intro htc
  unfold oaFinalContent at h
  by_cases hc : c4 = ""
  · rw [if_pos ⟨hc, htc⟩] at h
    exact append_ne_empty_left _ _ (append_ne_empty_left _ _ (by decide)) h
  · rw [if_neg (fun hand => hc hand.1)] at h
    exact hc h

/-- The openai response builder never yields empty content together with an
empty tool-call list. -/
theorem oaBuildResponse_no_silent_empty (env : PyEnv) (model : String)
    (streamed : List String) (resp : OAResponse)
    (h : (oaBuildResponse env model streamed resp).content = "") :
    (oaBuildResponse env model streamed resp).tool_calls ≠ [] := by
  rcases herr : resp.error with _ | err
  · simp only [oaBuildResponse, herr] at h ⊢
    exact oaFinalContent_ne_of_empty h
  · simp only [oaBuildResponse, herr] at h
    exact absurd h (append_ne_empty_left _ _
      (append_ne_empty_left _ _ (append_ne_empty_left _ _ (by decide))))

/-- C3 (confirmed): every provider adapter is total over remote-call failure
modes — rate-limit and authentication errors, the vendor API error class and
any other exception are converted into an `LLMResponse` whose content is the
human-readable explanation and whose `tool_calls` list is empty; nothing
propagates out of `generate_response`. -/
theorem C3_adapters_convert_failures (env : PyEnv) (cfg : ProviderCfg)
    (messages : List ChatMsg) (tools : Option (List ToolSpecDict)) (hh : Bool) :
    ((anthropicGenerateResponse env cfg messages tools hh .rateLimitError).response =
        ⟨"Rate limit exceeded. Please try again in a moment.", [], some cfg.model, none⟩ ∧
     (anthropicGenerateResponse env cfg messages tools hh .authenticationError).response =
        ⟨"Authentication failed. Please check your Anthropic API key.", [], some cfg.model, none⟩ ∧
     (∀ m, (anthropicGenerateResponse env cfg messages tools hh (.apiError m)).response.tool_calls = [] ∧
        (anthropicGenerateResponse env cfg messages tools hh (.apiError m)).response.content ≠ "") ∧
     (∀ m, (anthropicGenerateResponse env cfg messages tools hh (.otherError m)).response.tool_calls = [] ∧
        (anthropicGenerateResponse env cfg messages tools hh (.otherError m)).response.content ≠ "")) ∧
    ((openaiGenerateResponse env cfg messages tools hh .rateLimitError).response =
        ⟨"Rate limit exceeded. Please try again in a moment.", [], some cfg.model, none⟩ ∧
     (openaiGenerateResponse env cfg messages tools hh .authenticationError).response =
        ⟨"Authentication failed. Please check your OpenAI API key.", [], some cfg.model, none⟩ ∧
     (∀ m, (openaiGenerateResponse env cfg messages tools hh (.apiError m)).response.tool_calls = [] ∧
        (openaiGenerateResponse env cfg messages tools hh (.apiError m)).response.content ≠ "") ∧
     (∀ m, (openaiGenerateResponse env cfg messages tools hh (.otherError m)).response.tool_calls = [] ∧
        (openaiGenerateResponse env cfg messages tools hh (.otherError m)).response.content ≠ "")) ∧
    (∀ m, (googleGenerateResponse env cfg messages tools hh (.raised m)).response.tool_calls = [] ∧
       (googleGenerateResponse env cfg messages tools hh (.raised m)).response.content ≠ "") := by
  refine ⟨⟨rfl, rfl, ?_, ?_⟩, ⟨rfl, rfl, ?_, ?_⟩, ?_⟩ <;>
    intro m <;>
    exact ⟨rfl, append_ne_empty_left _ _ (by decide)⟩

/-- A trivial concrete runtime environment for witnesses. -/
def envTrivial : PyEnv :=
  ⟨fun _ => .error "not parsed", fun _ => "\x7b\x7d", fun _ => "\x7b\x7d",
   fun _ => "\x7b\x7d", fun _ => none, fun _ => 0, fun _ => "\x7b\x7d"⟩

/-- A runtime environment whose JSON decoder always yields the empty object. -/
def envOkJson : PyEnv :=
  ⟨fun _ => .ok [], fun _ => "\x7b\x7d", fun _ => "\x7b\x7d",
   fun _ => "\x7b\x7d", fun _ => none, fun _ => 0, fun _ => "\x7b\x7d"⟩

/-- The default Anthropic provider configuration. -/
def cfgAnth : ProviderCfg := ⟨false, 2048, "claude-3-sonnet-20240229"⟩

/-- The default OpenAI provider configuration. -/
def cfgOA : ProviderCfg := ⟨false, 2048, "gpt-5-nano"⟩

/-- The default Google provider configuration. -/
def cfgGoogle : ProviderCfg := ⟨false, 2048, "gemini-pro"⟩

/-- C5 counterexample: the Anthropic adapter, given a successful vendor reply
with no content blocks, returns the response with empty `content` AND empty
`tool_calls` as-is — no synthesized message is substituted. -/
theorem C5_counterexample_anthropic_empty :
    (anthropicGenerateResponse envTrivial cfgAnth [] none false
        (.ok [] ⟨[], none⟩)).response =
      ⟨"", [], some "claude-3-sonnet-20240229", none⟩ := rfl

/-- C5 (corrected): the OpenAI adapter never returns a response whose content
and tool-call list are both empty — the synthesized explanatory message is
substituted — and the Google adapter substitutes its explanatory message
whenever the effective response carries no candidates; the Anthropic adapter
does not implement the substitution and can return the empty response
unchanged. -/
theorem C5_no_output_substituted (env : PyEnv) (cfg : ProviderCfg)
    (messages : List ChatMsg) (tools : Option (List ToolSpecDict)) (hh : Bool) :
    (∀ api : OAApi,
      (openaiGenerateResponse env cfg messages tools hh api).response.content = "" →
      (openaiGenerateResponse env cfg messages tools hh api).response.tool_calls ≠ []) ∧
    (∀ (chunks : List GResponse) (plainResponse : GResponse),
      (∀ r, gEffectiveResponse (cfg.streaming && hh) chunks plainResponse = some r →
        r.candidates = []) →
      (googleGenerateResponse env cfg messages tools hh
          (.ok chunks plainResponse)).response.content =
        "No response generated. Content may have been blocked by safety filters.") := by
  constructor
  · intro api h
    cases api with
    | ok events finalResponse =>
      simp only [openaiGenerateResponse] at h ⊢
      exact oaBuildResponse_no_silent_empty _ _ _ _ h
    | rateLimitError => exact absurd h (by simp [openaiGenerateResponse, errorResult])
    | authenticationError => exact absurd h (by simp [openaiGenerateResponse, errorResult])
    | apiError m =>
      exact absurd h (append_ne_empty_left _ _ (by decide))
    | otherError m =>
      exact absurd h (append_ne_empty_left _ _ (by decide))
  · intro chunks plainResponse hno
    rcases heff : gEffectiveResponse (cfg.streaming && hh) chunks plainResponse with _ | r
    · simp only [googleGenerateResponse, heff]
    · simp only [googleGenerateResponse, heff, hno r heff]

/-- An openai success payload carrying exactly one function call and no text. -/
def oaFuncCallResp : OAResponse :=
  { output := [{ otype := some "function_call", name := some "list_directory",
                 arguments := some (.str "\x7b\x7d"), call_id := some "call_1" }] }

/-- Witness for C5: the openai adapter turns a call-only payload into empty
content with a non-empty tool-call list, and the google adapter substitutes
its message for a candidate-less payload. -/
theorem C5_no_output_substituted_witness :
    ((openaiGenerateResponse envOkJson cfgOA [] none false
        (.ok [] oaFuncCallResp)).response.content = "" ∧
     (openaiGenerateResponse envOkJson cfgOA [] none false
        (.ok [] oaFuncCallResp)).response.tool_calls ≠ []) ∧
    (googleGenerateResponse envOkJson cfgGoogle [] none false
        (.ok [] ⟨none, [], none⟩)).response.content =
      "No response generated. Content may have been blocked by safety filters." :=
  ⟨⟨rfl, (C5_no_output_substituted envOkJson cfgOA [] none false).1 _ rfl⟩,
   (C5_no_output_substituted envOkJson cfgGoogle [] none false).2 [] ⟨none, [], none⟩
     (fun r hr => by cases hr; rfl)⟩

/-! ## Streaming lemmas (for C8) -/

/-- `truthy` is the identity on non-empty strings. -/
theorem truthy_some_of_ne {f : String} (h : f ≠ "") : truthy (some f) = some f := by
  simp [truthy, h]

/-- The non-empty character data of a non-empty string. -/
theorem data_ne_of_ne_empty {s : String} (h : s ≠ "") : s.data ≠ [] := by
  intro hc
  exact h (String.ext hc)

/-- Folding `++` from a non-empty accumulator stays non-empty. -/
theorem foldl_append_ne_empty (l : List String) (acc : String) (h : acc ≠ "") :
    l.foldl (· ++ ·) acc ≠ "" := by
  induction l generalizing acc with
  | nil => simpa using h
  | cons x xs ih =>
    simp only [List.foldl_cons]
    exact ih (acc ++ x) (append_ne_empty_left acc x h)

/-- Joining a non-empty list of non-empty strings is non-empty. -/
theorem join_ne_empty {l : List String} (hl : l ≠ []) (hne : ∀ f ∈ l, f ≠ "") :
    String.join l ≠ "" := by
  cases l with
  | nil => exact absurd rfl hl
  | cons f rest =>
    show (f :: rest).foldl (· ++ ·) "" ≠ ""
    rw [List.foldl_cons]
    apply foldl_append_ne_empty
    intro hc
    apply hne f (by simp)
    apply String.ext
    have hd := congrArg String.data hc
    rw [String.data_append] at hd
    simpa using hd

/-- The openai streaming filter recovers exactly the non-empty fragments
delivered as `output_text` deltas. -/
theorem oaStreamedOf_deltas (fs : List String) (hne : ∀ f ∈ fs, f ≠ "") :
    oaStreamedOf (fs.map fun f => ⟨some "response.output_text.delta", some f⟩) = fs := by
  induction fs with
  | nil => rfl
  | cons f rest ih =>
    have hf : f ≠ "" := hne f (by simp)
    have hrest : ∀ g ∈ rest, g ≠ "" := fun g hg => hne g (by simp [hg])
    have ih2 := ih hrest
    simp only [oaStreamedOf] at ih2
    simp [oaStreamedOf, truthy, hf] at ih2 ⊢
    exact ih2

/-- The google streaming filter recovers exactly the non-empty chunk texts. -/
theorem gStreamedOf_texts (chunks : List GResponse) (fs : List String)
    (hmap : chunks.map (fun c => c.text) = fs.map some)
    (hne : ∀ f ∈ fs, f ≠ "") :
    gStreamedOf chunks = fs := by
  induction chunks generalizing fs with
  | nil =>
    cases fs with
    | nil => rfl
    | cons f r => simp at hmap
  | cons c rest ih =>
    cases fs with
    | nil => simp at hmap
    | cons f r =>
      simp only [List.map_cons, List.cons.injEq] at hmap
      obtain ⟨h1, h2⟩ := hmap
      have hf : f ≠ "" := hne f (by simp)
      have hr : ∀ g ∈ r, g ≠ "" := fun g hg => hne g (by simp [hg])
      simp only [gStreamedOf, List.filterMap_cons] at ih ⊢
      rw [h1, truthy_some_of_ne hf, ih r h2 hr]

/-- The google per-part loop never modifies an already non-empty content
accumulator. -/
theorem gProcessParts_preserve_content (env : PyEnv) (gemma : Bool)
    (parts : List GPart) (acc : String × List ToolCall) (h : acc.1 ≠ "") :
    (parts.foldl (gProcessPart env gemma) acc).1 = acc.1 := by
  induction parts generalizing acc with
  | nil => rfl
  | cons p rest ih =>
    rw [List.foldl_cons]
    have hstep : (gProcessPart env gemma acc p).1 = acc.1 := by
      rcases ht : truthy p.text with _ | t <;> rcases hfc : p.function_call with _ | fc <;>
        simp [gProcessPart, ht, hfc, h]
    rw [ih (gProcessPart env gemma acc p) (by rw [hstep]; exact h), hstep]

/-- The openai content cascade resolves to the fragment concatenation when
the payload carries no explicit error and its own parsed text is either
absent or equal to that concatenation. -/
theorem oaBuildResponse_streamed_content (env : PyEnv) (model : String)
    (fs : List String) (final : OAResponse)
    (herr : final.error = none)
    (hj : String.join fs ≠ "")
    (hparts : String.join (final.output.foldl (oaProcessItem env) ([], [], [])).1 = "" ∨
      String.join (final.output.foldl (oaProcessItem env) ([], [], [])).1 = String.join fs) :
    (oaBuildResponse env model fs final).content = String.join fs := by
  have hfs : fs ≠ [] := by
    intro hc
    subst hc
    exact hj rfl
  simp only [oaBuildResponse, herr]
  rcases hparts with hp | hp <;> rw [hp]
  · rw [if_pos (show ("" : String) = "" ∧ fs ≠ [] from ⟨rfl, hfs⟩), if_neg hj,
      if_neg (fun hand => hj hand.1)]
    unfold oaFinalContent
    rw [if_neg (fun hand => hj hand.1)]
  · have h2 : (if String.join fs = "" ∧ fs ≠ [] then String.join fs else String.join fs) =
        String.join fs := if_neg (fun hand => hj hand.1)
    rw [h2, if_neg hj, if_neg (fun hand => hj hand.1)]
    unfold oaFinalContent
    rw [if_neg (fun hand => hj hand.1)]

/-- C8 (confirmed): for each adapter under streaming, the sink is invoked
once per (non-empty) vendor fragment in emission order, and the final
normalized content equals the concatenation of the fragments — directly when
the final payload repeats the text, or via fragment concatenation when it
carries none. -/
theorem C8_streaming_fragments (env : PyEnv) (cfg : ProviderCfg)
    (messages : List ChatMsg) (tools : Option (List ToolSpecDict)) :
    (∀ (fs : List String) (finalMessage : AnthMessage)
        (fmtv : Option String × List AnthOutMsg),
      cfg.streaming = true →
      anthFormatMessages env messages = .ok fmtv →
      (∀ f ∈ fs, f ≠ "") → fs ≠ [] →
      ((anthExtract finalMessage.content).1 = "" ∨
        (anthExtract finalMessage.content).1 = String.join fs) →
      (anthropicGenerateResponse env cfg messages tools true
          (.ok fs finalMessage)).sinkCalls = fs ∧
      (anthropicGenerateResponse env cfg messages tools true
          (.ok fs finalMessage)).response.content = String.join fs) ∧
    (∀ (fs : List String) (finalResponse : OAResponse),
      cfg.streaming = true →
      finalResponse.error = none →
      (∀ f ∈ fs, f ≠ "") → fs ≠ [] →
      (String.join (finalResponse.output.foldl (oaProcessItem env) ([], [], [])).1 = "" ∨
        String.join (finalResponse.output.foldl (oaProcessItem env) ([], [], [])).1 =
          String.join fs) →
      (openaiGenerateResponse env cfg messages tools true
          (.ok (fs.map fun f => ⟨some "response.output_text.delta", some f⟩)
            finalResponse)).sinkCalls = fs ∧
      (openaiGenerateResponse env cfg messages tools true
          (.ok (fs.map fun f => ⟨some "response.output_text.delta", some f⟩)
            finalResponse)).response.content = String.join fs) ∧
    (∀ (chunks : List GResponse) (plainResponse : GResponse) (fs : List String)
        (lc : GResponse),
      cfg.streaming = true →
      chunks.map (fun c => c.text) = fs.map some →
      (∀ f ∈ fs, f ≠ "") → fs ≠ [] →
      chunks.getLast? = some lc →
      lc.candidates ≠ [] →
      (googleGenerateResponse env cfg messages tools true
          (.ok chunks plainResponse)).sinkCalls = fs ∧
      (googleGenerateResponse env cfg messages tools true
          (.ok chunks plainResponse)).response.content = String.join fs) := by
  refine ⟨?_, ?_, ?_⟩
  · -- Anthropic
    intro fs finalMessage fmtv hst hfmt hne hfs hext
    have hgen : anthropicGenerateResponse env cfg messages tools true
        (.ok fs finalMessage) =
        ⟨⟨if (anthExtract finalMessage.content).1 = "" ∧ fs ≠ [] then String.join fs
            else (anthExtract finalMessage.content).1,
          (anthExtract finalMessage.content).2, some cfg.model,
          finalMessage.usage.map fun u =>
            [("input_tokens", u.input_tokens), ("output_tokens", u.output_tokens),
             ("total_tokens", u.input_tokens + u.output_tokens)]⟩,
         fs, messages⟩ := by
      simp only [anthropicGenerateResponse, hfmt, hst]
      rfl
    rw [hgen]
    refine ⟨rfl, ?_⟩
    rcases hext with hext | hext
    · show (if _ then _ else _) = _
      rw [if_pos ⟨hext, hfs⟩]
    · show (if _ then _ else _) = _
      by_cases hc : (anthExtract finalMessage.content).1 = ""
      · rw [if_pos ⟨hc, hfs⟩]
      · rw [if_neg (fun hand => hc hand.1), hext]
  · -- OpenAI
    intro fs finalResponse hst herr hne hfs hparts
    have hj : String.join fs ≠ "" := join_ne_empty hfs hne
    have hstr := oaStreamedOf_deltas fs hne
    have hgen : openaiGenerateResponse env cfg messages tools true
        (.ok (fs.map fun f => ⟨some "response.output_text.delta", some f⟩)
          finalResponse) =
        ⟨oaBuildResponse env cfg.model fs finalResponse, fs, messages⟩ := by
      simp only [openaiGenerateResponse, hst, hstr]
      rfl
    rw [hgen]
    exact ⟨rfl, oaBuildResponse_streamed_content env cfg.model fs finalResponse
      herr hj hparts⟩
  · -- Google
    intro chunks plainResponse fs lc hst hmap hne hfs hlast hcand
    have hj : String.join fs ≠ "" := join_ne_empty hfs hne
    have hstr := gStreamedOf_texts chunks fs hmap hne
    rcases hcl : lc.candidates with _ | ⟨cand, crest⟩
    · exact absurd hcl hcand
    have heff : gEffectiveResponse true chunks plainResponse = some lc := by
      simp [gEffectiveResponse, hlast]
    have hcontent : (match cand.content with
        | some cc =>
          if cc.parts ≠ [] then
            cc.parts.foldl (gProcessPart env (isGemmaModel cfg.model))
              (String.join fs, [])
          else (String.join fs, ([] : List ToolCall))
        | none => (String.join fs, ([] : List ToolCall))).1 = String.join fs := by
      rcases hcc : cand.content with _ | cc
      · rfl
      · simp only
        by_cases hp : cc.parts ≠ []
        · rw [if_pos hp]
          exact gProcessParts_preserve_content env _ cc.parts (String.join fs, []) hj
        · rw [if_neg hp]
    have hgen : googleGenerateResponse env cfg messages tools true
        (.ok chunks plainResponse) =
        ⟨⟨(match cand.content with
            | some cc =>
              if cc.parts ≠ [] then
                cc.parts.foldl (gProcessPart env (isGemmaModel cfg.model))
                  (String.join fs, [])
              else (String.join fs, ([] : List ToolCall))
            | none => (String.join fs, ([] : List ToolCall))).1,
           (match cand.content with
            | some cc =>
              if cc.parts ≠ [] then
                cc.parts.foldl (gProcessPart env (isGemmaModel cfg.model))
                  (String.join fs, [])
              else (String.join fs, ([] : List ToolCall))
            | none => (String.join fs, ([] : List ToolCall))).2,
           some cfg.model,
           lc.usage_metadata.map fun u =>
             [("prompt_tokens", u.prompt_token_count.getD 0),
              ("completion_tokens", u.candidates_token_count.getD 0),
              ("total_tokens", u.total_token_count.getD 0)]⟩,
         fs, messages⟩ := by
      simp only [googleGenerateResponse, hst, Bool.and_self, heff, hcl,
        eq_self_iff_true, if_true, hstr]
    rw [hgen]
    exact ⟨rfl, hcontent⟩

/-- Anthropic provider configuration with streaming enabled. -/
def cfgAnthStream : ProviderCfg := ⟨true, 2048, "claude-3-sonnet-20240229"⟩

/-- OpenAI provider configuration with streaming enabled. -/
def cfgOAStream : ProviderCfg := ⟨true, 2048, "gpt-5-nano"⟩

/-- Google provider configuration with streaming enabled. -/
def cfgGoogleStream : ProviderCfg := ⟨true, 2048, "gemini-pro"⟩

/-- Three google chunks carrying the scenario fragments; the last one has a
candidate with no parts. -/
def gChunksHello : List GResponse :=
  [⟨some "Hel", [], none⟩, ⟨some "lo ", [], none⟩,
   ⟨some "world", [⟨some ⟨[]⟩⟩], none⟩]

/-- Witness for C8: fragments `"Hel"`, `"lo "`, `"world"` produce three sink
calls in order and final content `"Hello world"` for all three adapters. -/
theorem C8_streaming_fragments_witness :
    ((anthropicGenerateResponse envTrivial cfgAnthStream [] none true
        (.ok ["Hel", "lo ", "world"] ⟨[], none⟩)).sinkCalls =
          ["Hel", "lo ", "world"] ∧
     (anthropicGenerateResponse envTrivial cfgAnthStream [] none true
        (.ok ["Hel", "lo ", "world"] ⟨[], none⟩)).response.content = "Hello world") ∧
    ((openaiGenerateResponse envTrivial cfgOAStream [] none true
        (.ok (["Hel", "lo ", "world"].map fun f =>
          ⟨some "response.output_text.delta", some f⟩) {})).sinkCalls =
          ["Hel", "lo ", "world"] ∧
     (openaiGenerateResponse envTrivial cfgOAStream [] none true
        (.ok (["Hel", "lo ", "world"].map fun f =>
          ⟨some "response.output_text.delta", some f⟩) {})).response.content =
          "Hello world") ∧
    ((googleGenerateResponse envTrivial cfgGoogleStream [] none true
        (.ok gChunksHello ⟨none, [], none⟩)).sinkCalls = ["Hel", "lo ", "world"] ∧
     (googleGenerateResponse envTrivial cfgGoogleStream [] none true
        (.ok gChunksHello ⟨none, [], none⟩)).response.content = "Hello world") := by
  have hA := (C8_streaming_fragments envTrivial cfgAnthStream [] none).1
    ["Hel", "lo ", "world"] ⟨[], none⟩ (none, []) rfl rfl (by decide) (by decide)
    (Or.inl rfl)
  have hO := (C8_streaming_fragments envTrivial cfgOAStream [] none).2.1
    ["Hel", "lo ", "world"] {} rfl rfl (by decide) (by decide) (Or.inl rfl)
  have hG := (C8_streaming_fragments envTrivial cfgGoogleStream [] none).2.2
    gChunksHello ⟨none, [], none⟩ ["Hel", "lo ", "world"]
    ⟨some "world", [⟨some ⟨[]⟩⟩], none⟩ rfl rfl (by decide) (by decide) rfl
    (by decide)
  refine ⟨⟨hA.1, ?_⟩, ⟨hO.1, ?_⟩, ⟨hG.1, ?_⟩⟩
  · rw [hA.2]; rfl
  · rw [hO.2]; rfl
  · rw [hG.2]; rfl

/-- C9 (confirmed): each adapter called with no tools leaves the caller's
message list exactly as it was — the formatters only read the input, so a
second call receives the identical context. -/
theorem C9_generate_preserves_messages (env : PyEnv) (cfg : ProviderCfg)
    (messages : List ChatMsg) (hh : Bool)
    (apiA : AnthApi) (apiO : OAApi) (apiG : GApi) :
    (anthropicGenerateResponse env cfg messages none hh apiA).messagesAfter =
      messages ∧
    (openaiGenerateResponse env cfg messages none hh apiO).messagesAfter =
      messages ∧
    (googleGenerateResponse env cfg messages none hh apiG).messagesAfter =
      messages := by
  refine ⟨?_, ?_, ?_⟩
  · cases apiA with
    | ok fragments finalMessage =>
      simp only [anthropicGenerateResponse]
      rcases hf : anthFormatMessages env messages with e | v <;> rfl
    | rateLimitError => rfl
    | authenticationError => rfl
    | apiError m => rfl
    | otherError m => rfl
  · cases apiO <;> rfl
  · cases apiG with
    | ok chunks plainResponse =>
      simp only [googleGenerateResponse]
      rcases gEffectiveResponse (cfg.streaming && hh) chunks plainResponse with _ | r
      · rfl
      · obtain ⟨t, cands, um⟩ := r
        rcases cands with _ | ⟨c, cr⟩ <;> rfl
    | raised m => rfl

/-- `strStartsWith` holds for a left append factor. -/
theorem strStartsWith_append (a b : String) : strStartsWith (a ++ b) a = true := by
  unfold strStartsWith
  rw [String.data_append]
  induction a.data with
  | nil => simp [List.isPrefixOf]
  | cons c t ih => simp [List.isPrefixOf, ih]

/-- `strStartsWith` is reflexive. -/
theorem strStartsWith_refl (a : String) : strStartsWith a a = true := by
  unfold strStartsWith
  induction a.data with
  | nil => simp [List.isPrefixOf]
  | cons c t ih => simp [List.isPrefixOf, ih]

/-- C4 (confirmed): `chat` always returns a string (the embedding is total),
and whenever the turn body raises, the returned string begins with
`"LLM Error: "` followed by the exception message — the exception is never
propagated to the caller. -/
theorem C4_chat_error_boundary (d : ChatDeps) (message e : String)
    (h : chatBody d message = .error e) :
    strStartsWith (chat d message) ("LLM Error: " ++ e) = true := by
  simp only [chat, h]
  by_cases hd : d.cfg.show_debug = true
  · rw [if_pos hd]
    have hassoc : "LLM Error: " ++ e ++ "\nDebug info: " ++ d.traceback =
        ("LLM Error: " ++ e) ++ ("\nDebug info: " ++ d.traceback) := by
      apply String.ext
      simp [String.data_append]
    rw [hassoc]
    exact strStartsWith_append _ _
  · rw [if_neg hd]
    exact strStartsWith_refl _

/-- Orchestrator dependencies whose provider call always raises. -/
def depsGenError : ChatDeps :=
  ⟨envTrivial, ⟨false, true, false⟩, none, none, fun _ _ => .error "boom",
   fun _ => true, fun _ => .ok "ok", fun _ => shellRequiresConfirmation, ""⟩

/-- Witness for C4: the raising provider is converted into an
`"LLM Error: boom"` response. -/
theorem C4_chat_error_boundary_witness :
    strStartsWith (chat depsGenError "hi") ("LLM Error: " ++ "boom") = true :=
  C4_chat_error_boundary depsGenError "hi" "boom" rfl

/-- Each resolved tool call keeps its originating call id. -/
theorem resolveToolCall_id (d : ChatDeps) (tc : ToolCall) :
    (resolveToolCall d tc).1.tool_call_id = tc.call_id := by
  unfold resolveToolCall execResultOf
  by_cases hc : d.cfg.require_confirmation = true <;>
    rcases he : d.execTool tc with e | r <;>
      by_cases hcf : d.confirm tc = true <;>
        simp [hc, hcf, he]

/-- The tool-result list pairs one result per call, in emission order. -/
theorem resolveToolCalls_ids (d : ChatDeps) (tcs : List ToolCall) :
    ((resolveToolCalls d tcs).1.map fun r => r.tool_call_id) =
      tcs.map fun tc => tc.call_id := by
  induction tcs with
  | nil => rfl
  | cons tc rest ih =>
    simp only [resolveToolCalls, List.map_cons, ih, List.cons.injEq]
    exact ⟨resolveToolCall_id d tc, trivial⟩

/-- C6 (confirmed): when the first provider response carries tool calls, the
orchestrator resolves them in emission order, appends the single
assistant-with-tool-calls message plus one tool-result message per call,
invokes `generate` a second time (without tools), and returns the second
response's content — with the result ids matching the emitted call ids
one-for-one, in order. -/
theorem C6_tool_call_round_trip (d : ChatDeps) (message : String)
    (r1 r2 : LLMResponse)
    (hh : d.history = none)
    (h1 : d.gen [systemMessage] (some (getAvailableTools d.cfg)) = .ok r1)
    (htc : r1.tool_calls ≠ [])
    (h2 : d.gen ([systemMessage] ++ [assistantToolMsg d.env r1] ++
        (resolveToolCalls d r1.tool_calls).1.map toolResultMsg) none = .ok r2) :
    chat d message = r2.content ∧
    ((resolveToolCalls d r1.tool_calls).1.map fun r => r.tool_call_id) =
      r1.tool_calls.map fun tc => tc.call_id := by
  refine ⟨?_, resolveToolCalls_ids d r1.tool_calls⟩
  have hbody : chatBody d message = .ok r2.content := by
    unfold chatBody getConversationContext handleToolCalls
    rw [hh]
    simp only [h1, if_pos htc, h2]
  unfold chat
  rw [hbody]

/-- The first provider response of the round-trip scenario: no text, one
`list_directory` call. -/
def r1Demo : LLMResponse :=
  ⟨"", [⟨"list_directory", [("directory_path", ".")], "call_1"⟩],
   some "gpt-5-nano", none⟩

/-- The follow-up response of the round-trip scenario. -/
def r2Demo : LLMResponse := ⟨"There are 3 files.", [], some "gpt-5-nano", none⟩

/-- Orchestrator dependencies for the round-trip scenario: no history,
confirmation disabled, a provider returning `r1Demo` on the tools-carrying
first call and `r2Demo` on the tool-less follow-up. -/
def depsDemo : ChatDeps :=
  ⟨envTrivial, ⟨false, true, false⟩, none, none,
   fun _ tools => match tools with | some _ => .ok r1Demo | none => .ok r2Demo,
   fun _ => true, fun _ => .ok "README.md  src  tests",
   fun _ => shellRequiresConfirmation, ""⟩

/-- Witness for C6: the scenario turn returns the follow-up's content. -/
theorem C6_tool_call_round_trip_witness :
    chat depsDemo "what\x27s in this directory?" = "There are 3 files." ∧
    ((resolveToolCalls depsDemo r1Demo.tool_calls).1.map fun r => r.tool_call_id) =
      r1Demo.tool_calls.map fun tc => tc.call_id :=
  C6_tool_call_round_trip depsDemo "what\x27s in this directory?" r1Demo r2Demo
    rfl rfl (by decide) rfl

/-- With the confirmation flag off, every call is executed directly. -/
theorem resolveToolCalls_no_confirm (d : ChatDeps)
    (hrc : d.cfg.require_confirmation = false) (tcs : List ToolCall) :
    resolveToolCalls d tcs = (tcs.map (execResultOf d), []) := by
  induction tcs with
  | nil => rfl
  | cons tc rest ih =>
    simp only [resolveToolCalls, ih, List.map_cons]
    unfold resolveToolCall
    rw [if_neg (by simp [hrc])]
    rfl

/-- With the confirmation flag on, every call is solicited (whatever the
user answers). -/
theorem resolveToolCalls_confirm_log (d : ChatDeps)
    (hrc : d.cfg.require_confirmation = true) (tcs : List ToolCall) :
    (resolveToolCalls d tcs).2 = tcs := by
  induction tcs with
  | nil => rfl
  | cons tc rest ih =>
    simp only [resolveToolCalls]
    unfold resolveToolCall
    rw [if_pos hrc]
    by_cases hc : d.confirm tc = true <;> simp [hc, ih]

/-- Resolution of one call ignores the tools' own `requires_confirmation`. -/
theorem resolveToolCall_rc_invariant (d : ChatDeps) (f : String → Bool)
    (tc : ToolCall) :
    resolveToolCall { d with requiresConfirmation := f } tc = resolveToolCall d tc :=
  rfl

/-- Resolution of a call list ignores the tools' own
`requires_confirmation`. -/
theorem resolveToolCalls_rc_invariant (d : ChatDeps) (f : String → Bool)
    (tcs : List ToolCall) :
    resolveToolCalls { d with requiresConfirmation := f } tcs =
      resolveToolCalls d tcs := by
  induction tcs with
  | nil => rfl
  | cons tc rest ih =>
    simp only [resolveToolCalls, ih, resolveToolCall_rc_invariant]

/-- The whole tool-call handler ignores the tools' own
`requires_confirmation`. -/
theorem handleToolCalls_rc_invariant (d : ChatDeps) (f : String → Bool)
    (response : LLMResponse) (context : List ChatMsg) :
    handleToolCalls { d with requiresConfirmation := f } response context =
      handleToolCalls d response context := by
  simp only [handleToolCalls, resolveToolCalls_rc_invariant]

/-- C10 (confirmed): the orchestrator's confirmation gate reads only
`config.require_confirmation` — when the flag is false no confirmation is
solicited and every call (shell included) executes directly; when it is true
every call is solicited; and the behaviour is invariant under any change of
the tools' own `requires_confirmation`, which is never consulted. -/
theorem C10_confirmation_gate_flag_only (d : ChatDeps) (response : LLMResponse)
    (context : List ChatMsg) :
    (d.cfg.require_confirmation = false →
      (handleToolCalls d response context).2 = [] ∧
      (resolveToolCalls d response.tool_calls).1 =
        response.tool_calls.map (execResultOf d)) ∧
    (d.cfg.require_confirmation = true →
      (handleToolCalls d response context).2 = response.tool_calls) ∧
    (∀ f g : String → Bool,
      handleToolCalls { d with requiresConfirmation := f } response context =
        handleToolCalls { d with requiresConfirmation := g } response context) := by
  refine ⟨?_, ?_, ?_⟩
  · intro hrc
    have h := resolveToolCalls_no_confirm d hrc response.tool_calls
    constructor
    · simp only [handleToolCalls, h]
    · rw [h]
  · intro hrc
    simp only [handleToolCalls]
    exact resolveToolCalls_confirm_log d hrc response.tool_calls
  · intro f g
    rw [handleToolCalls_rc_invariant d f response context,
      handleToolCalls_rc_invariant d g response context]

/-- Orchestrator dependencies with the confirmation flag off and a
shell-style tool whose own `requires_confirmation` returns true. -/
def depsNoConfirm : ChatDeps :=
  ⟨envTrivial, ⟨false, true, false⟩, none, none, fun _ _ => .ok r2Demo,
   fun _ => false, fun _ => .ok "ran", fun _ => shellRequiresConfirmation, ""⟩

/-- Witness for C10: with the flag off, no solicitation happens and the
call is executed even though the tool itself demands confirmation. -/
theorem C10_confirmation_gate_flag_only_witness :
    (handleToolCalls depsNoConfirm r1Demo []).2 = [] ∧
    (resolveToolCalls depsNoConfirm r1Demo.tool_calls).1 =
      r1Demo.tool_calls.map (execResultOf depsNoConfirm) :=
  (C10_confirmation_gate_flag_only depsNoConfirm r1Demo []).1 rfl
